import Mathlib

/-!
Shallow embedding of the lazystack terminal UI core: the reactive reducer
(`Model.Update`), the confirmation/help modal protocol, the asynchronous load
dispatchers, the layout computation, the list-row truncation of the compact
list delegate, and the `LogViewer` content operations.

Machine integers (`int`, `int32`, `int64`) are modelled as `Int`; Go's
truncating integer division is `Int.tdiv`.  The external bubbles `list.Model`
and `viewport.Model` collaborators are modelled at their observable interface
(items, cursor, content, scroll offset).  The Kubernetes backend is modelled
as a response oracle: each call site reads the oracle's answer for that call.
-/

namespace Lazystack

/-- Which left pane section is focused (`CategoryType`). -/
inductive CategoryType where
  | namespacesCategory
  | deploymentsCategory
  | podsCategory
  | servicesCategory
deriving DecidableEq, Repr

/-- Tabs in the right pane (`RightPaneTab`). -/
inductive RightPaneTab where
  | logsTab
  | statsTab
  | envTab
  | configTab
  | topTab
  | execTab
deriving DecidableEq, Repr

/-- `k8s.DeploymentInfo`. -/
structure DeploymentInfo where
  Name : String
  Namespace : String
  Ready : String
  UpToDate : Int
  Available : Int
  Replicas : Int
deriving DecidableEq, Repr

/-- `k8s.PodInfo`. -/
structure PodInfo where
  Name : String
  Namespace : String
  Status : String
  Ready : String
  Restarts : Int
  Age : String
deriving DecidableEq, Repr

/-- `k8s.ServiceInfo` (`Type` is a Lean keyword, so that field is `svcType`). -/
structure ServiceInfo where
  Name : String
  Namespace : String
  svcType : String
  ClusterIP : String
  ExternalIP : String
  Ports : String
deriving DecidableEq, Repr

/-- `k8s.PodMetrics`. -/
structure PodMetrics where
  Name : String
  Namespace : String
  CPUUsageMillis : Int
  MemoryUsageBytes : Int
  CPUUsageFormatted : String
  MemoryUsageFormatted : String
deriving DecidableEq, Repr

/-- `k8s.EnvVar`. -/
structure EnvVar where
  Name : String
  Value : String
  ValueFrom : String
deriving DecidableEq, Repr

/-- `k8s.PodEnvVars`; the Go `map[string][]EnvVar` is modelled as an
association list in iteration order. -/
structure PodEnvVars where
  PodName : String
  Namespace : String
  Containers : List (String × List EnvVar)
deriving DecidableEq, Repr

/-- `k8s.PortForward` (the `*exec.Cmd` process handle is opaque and omitted). -/
structure PortForward where
  PodName : String
  LocalPort : String
  RemotePort : String
deriving DecidableEq, Repr

/-- The Kubernetes backend collaborator (`k8s.Manager`), modelled at its
interface boundary as a response oracle: each field gives the outcome the
backend returns for the corresponding call.  `ns` is the manager's mutable
current namespace (written by `SetNamespace`).  `Except.error e` / `some e`
carry the error text. -/
structure Manager where
  ns : String
  listNamespacesRes : Except String (List String)
  listDeploymentsRes : Except String (List DeploymentInfo)
  listPodsRes : Except String (List PodInfo)
  listServicesRes : Except String (List ServiceInfo)
  podLogsRes : String → Except String String
  podMetricsRes : String → Except String PodMetrics
  podEnvVarsRes : String → Except String PodEnvVars
  podYAMLRes : String → Except String String
  deploymentYAMLRes : String → Except String String
  serviceYAMLRes : String → Except String String
  deletePodRes : String → Option String
  deleteDeploymentRes : String → Option String
  scaleDeploymentRes : String → Int → Option String
  startPortForwardRes : String → String → String → Except String PortForward

/-- Observable state of an external bubbles `list.Model`: items, cursor,
and the size set through `SetSize`. -/
structure ListModel (α : Type) where
  items : List α
  index : Nat
  width : Int
  height : Int
deriving DecidableEq, Repr

/-- `list.Model.SelectedItem`: `nil` when the cursor is out of range. -/
def ListModel.selectedItem {α : Type} (l : ListModel α) : Option α :=
  l.items.get? l.index

/-- `list.Model.SetItems`: replaces the items, cursor untouched. -/
def ListModel.setItems {α : Type} (l : ListModel α) (its : List α) : ListModel α :=
  { l with items := its }

/-- `list.Model.SetSize`. -/
def ListModel.setSize {α : Type} (l : ListModel α) (w h : Int) : ListModel α :=
  { l with width := w, height := h }

/-- Cursor movement of the external list on navigation keys: up/k move the
cursor one up, down/j one down, clamped to the ends (never wraps). -/
def ListModel.update {α : Type} (l : ListModel α) (k : String) : ListModel α :=
  if k = "up" ∨ k = "k" then
    { l with index := l.index - 1 }
  else if k = "down" ∨ k = "j" then
    { l with index := if l.index + 1 < l.items.length then l.index + 1 else l.index }
  else
    l

/-- Observable state of an external bubbles `viewport.Model`. -/
structure Viewport where
  width : Int
  height : Int
  content : String
  yOffset : Int
  highPerformanceRendering : Bool
deriving DecidableEq, Repr

/-- `viewport.New`. -/
def Viewport.new (w h : Int) : Viewport :=
  { width := w, height := h, content := "", yOffset := 0, highPerformanceRendering := false }

/-- Number of content lines of the viewport. -/
def Viewport.lineCount (v : Viewport) : Int :=
  (v.content.split (fun c => c = '\n')).length

/-- `viewport.Model.SetContent`. -/
def Viewport.setContent (v : Viewport) (s : String) : Viewport :=
  { v with content := s }

/-- `viewport.Model.GotoBottom`. -/
def Viewport.gotoBottom (v : Viewport) : Viewport :=
  { v with yOffset := max 0 (v.lineCount - v.height) }

/-- Scrolling of the external viewport on navigation keys, one line at a
time, clamped. -/
def Viewport.update (v : Viewport) (k : String) : Viewport :=
  if k = "up" ∨ k = "k" then
    { v with yOffset := max 0 (v.yOffset - 1) }
  else if k = "down" ∨ k = "j" then
    { v with yOffset := min (max 0 (v.lineCount - v.height)) (v.yOffset + 1) }
  else
    v

/-- The application model (`ui.Model`).  The systemd manager is initialized
but unused by the UI; it is modelled as an opaque optional handle. -/
structure Model where
  width : Int
  height : Int
  ready : Bool
  activeCategory : CategoryType
  namespacesList : ListModel String
  deploymentsList : ListModel DeploymentInfo
  podsList : ListModel PodInfo
  servicesList : ListModel ServiceInfo
  selectedResource : String
  activeTab : RightPaneTab
  logsViewport : Viewport
  statsViewport : Viewport
  envViewport : Viewport
  configViewport : Viewport
  k8sManager : Option Manager
  k8sInitError : Option String
  currentNamespace : String
  namespaces : List String
  deployments : List DeploymentInfo
  pods : List PodInfo
  services : List ServiceInfo
  currentMetrics : Option PodMetrics
  currentEnvVars : Option PodEnvVars
  currentYAML : String
  selectedResourceType : String
  activePortForwards : List (String × PortForward)
  systemdManager : Option Unit
  statusMessage : String
  showConfirmDialog : Bool
  confirmAction : String
  confirmResource : String
  confirmReplicas : Int
  showHelp : Bool

/-- Typed result and input events (`tea.Msg`).  Key events carry the string
bubbletea's `KeyMsg.String()` produces. -/
inductive Msg where
  | key (k : String)
  | namespacesLoaded (res : Except String (List String))
  | deploymentsLoaded (res : Except String (List DeploymentInfo))
  | podsLoaded (res : Except String (List PodInfo))
  | servicesLoaded (res : Except String (List ServiceInfo))
  | podLogsLoaded (res : Except String String)
  | podMetricsLoaded (res : Except String PodMetrics)
  | podEnvVarsLoaded (res : Except String PodEnvVars)
  | resourceYAMLLoaded (res : Except String String)
  | tick
  | windowSize (w h : Int)

/-- Atomic follow-up commands the reducer issues (`tea.Cmd`).  Load commands
carry the parameters the Go closure captures at dispatch time. -/
inductive ACmd where
  | loadNamespaces
  | loadDeployments
  | loadPods
  | loadServices
  | loadPodLogs (podName : String)
  | loadPodMetrics (podName : String)
  | loadPodEnvVars (podName : String)
  | loadResourceYAML (resType resName : String)
  | tick
  | quit
deriving DecidableEq, Repr

/-- Category order as `int` values, for the modular cycling arithmetic. -/
def CategoryType.toIdx : CategoryType → Nat
  | .namespacesCategory => 0
  | .deploymentsCategory => 1
  | .podsCategory => 2
  | .servicesCategory => 3

/-- Inverse of `CategoryType.toIdx` on `[0,4)`. -/
def CategoryType.ofIdx (n : Nat) : CategoryType :=
  if n = 0 then .namespacesCategory
  else if n = 1 then .deploymentsCategory
  else if n = 2 then .podsCategory
  else .servicesCategory

/-- `(m.activeCategory + 1) % 4`. -/
def CategoryType.next (c : CategoryType) : CategoryType :=
  CategoryType.ofIdx ((c.toIdx + 1) % 4)

/-- `(m.activeCategory - 1 + 4) % 4`. -/
def CategoryType.prev (c : CategoryType) : CategoryType :=
  CategoryType.ofIdx ((c.toIdx + 3) % 4)

/-- Executing one atomic dispatched command against the (possibly absent)
backend manager: the message it enqueues, exactly mirroring the Go
`load*` closures, `tick`, and `tea.Quit` (which produces no reducer event).
Every load against a `nil` manager short-circuits with the local
"k8s manager not initialized" error. -/
def runACmd (mgr : Option Manager) : ACmd → Option Msg
  | .loadNamespaces =>
      match mgr with
      | none => some (.namespacesLoaded (.error "k8s manager not initialized"))
      | some mg => some (.namespacesLoaded mg.listNamespacesRes)
  | .loadDeployments =>
      match mgr with
      | none => some (.deploymentsLoaded (.error "k8s manager not initialized"))
      | some mg => some (.deploymentsLoaded mg.listDeploymentsRes)
  | .loadPods =>
      match mgr with
      | none => some (.podsLoaded (.error "k8s manager not initialized"))
      | some mg => some (.podsLoaded mg.listPodsRes)
  | .loadServices =>
      match mgr with
      | none => some (.servicesLoaded (.error "k8s manager not initialized"))
      | some mg => some (.servicesLoaded mg.listServicesRes)
  | .loadPodLogs p =>
      match mgr with
      | none => some (.podLogsLoaded (.error "k8s manager not initialized"))
      | some mg => some (.podLogsLoaded (mg.podLogsRes p))
  | .loadPodMetrics p =>
      match mgr with
      | none => some (.podMetricsLoaded (.error "k8s manager not initialized"))
      | some mg => some (.podMetricsLoaded (mg.podMetricsRes p))
  | .loadPodEnvVars p =>
      match mgr with
      | none => some (.podEnvVarsLoaded (.error "k8s manager not initialized"))
      | some mg => some (.podEnvVarsLoaded (mg.podEnvVarsRes p))
  | .loadResourceYAML t n =>
      match mgr with
      | none => some (.resourceYAMLLoaded (.error "k8s manager not initialized"))
      | some mg =>
          if t = "pod" then some (.resourceYAMLLoaded (mg.podYAMLRes n))
          else if t = "deployment" then some (.resourceYAMLLoaded (mg.deploymentYAMLRes n))
          else if t = "service" then some (.resourceYAMLLoaded (mg.serviceYAMLRes n))
          else some (.resourceYAMLLoaded (.error ("unknown resource type: " ++ t)))
  | .tick => some .tick
  | .quit => none

/-- `NewModel`: the initial model, parametrized by the outcome of
`k8s.NewManager()` (which returns either a manager or an error). -/
def initModel (mgrRes : Except String Manager) : Model :=
  { width := 0
    height := 0
    ready := false
    activeCategory := .namespacesCategory
    namespacesList := { items := [], index := 0, width := 0, height := 0 }
    deploymentsList := { items := [], index := 0, width := 0, height := 0 }
    podsList := { items := [], index := 0, width := 0, height := 0 }
    servicesList := { items := [], index := 0, width := 0, height := 0 }
    selectedResource := ""
    activeTab := .logsTab
    logsViewport := Viewport.new 0 0
    statsViewport := Viewport.new 0 0
    envViewport := Viewport.new 0 0
    configViewport := Viewport.new 0 0
    k8sManager := mgrRes.toOption
    k8sInitError := match mgrRes with | .error e => some e | .ok _ => none
    currentNamespace := "default"
    namespaces := []
    deployments := []
    pods := []
    services := []
    currentMetrics := none
    currentEnvVars := none
    currentYAML := ""
    selectedResourceType := ""
    activePortForwards := []
    systemdManager := some ()
    statusMessage :=
      match mgrRes with
      | .error e => "⚠ K8s init failed: " ++ e
      | .ok _ => "✓ K8s connected"
    showConfirmDialog := false
    confirmAction := ""
    confirmResource := ""
    confirmReplicas := 0
    showHelp := false }

/-- `Model.Init`: the startup command batch. -/
def initCmds : List ACmd :=
  [.loadNamespaces, .loadDeployments, .loadPods, .loadServices, .tick]

/-- `createBar`: visual progress bar of `width` cells, `percent` clamped to
`[0,100]`, filled portion `percent*width/100`. -/
def createBar (percent width : Int) : String :=
  let p := if percent < 0 then 0 else if percent > 100 then 100 else percent
  let filled := (p * width).tdiv 100
  let empty := width - filled
  String.mk (List.replicate filled.toNat '█') ++ String.mk (List.replicate empty.toNat '░')

/-- The explanatory placeholder text shown when pod metrics are unavailable. -/
def metricsUnavailableText (res : String) : String :=
  "Metrics unavailable for " ++ res ++
    "\n\nNote: Metrics require metrics-server to be installed in the cluster.\nInstall with: kubectl apply -f https://github.com/kubernetes-sigs/metrics-server/releases/latest/download/components.yaml"

/-- `Model.renderStats`. -/
def Model.renderStats (m : Model) : String :=
  if m.selectedResource = "" then "Select a pod to view stats"
  else
    match m.currentMetrics with
    | none =>
        "Loading metrics for " ++ m.selectedResource ++
          "...\n\nNote: Metrics require metrics-server to be installed in the cluster.\nInstall with: kubectl apply -f https://github.com/kubernetes-sigs/metrics-server/releases/latest/download/components.yaml"
    | some mt =>
        let cpuPercent0 := (mt.CPUUsageMillis * 100).tdiv 1000
        let cpuPercent := if cpuPercent0 > 100 then 100 else cpuPercent0
        let memPercent0 := (mt.MemoryUsageBytes * 100).tdiv (1024 * 1024 * 1024)
        let memPercent := if memPercent0 > 100 then 100 else memPercent0
        let cpuBar := createBar cpuPercent 20
        let memBar := createBar memPercent 20
        "Resource Metrics for: " ++ mt.Name ++ "\n\nCPU Usage:    " ++
          mt.CPUUsageFormatted ++ "  " ++ cpuBar ++ " (" ++ toString cpuPercent ++
          "%)\nMemory Usage: " ++ mt.MemoryUsageFormatted ++ "  " ++ memBar ++
          " (" ++ toString memPercent ++ "%)\n\nRaw Values:\n  CPU:    " ++
          mt.CPUUsageFormatted ++ "\n  Memory: " ++ mt.MemoryUsageFormatted ++
          "\n\nNamespace: " ++ mt.Namespace

/-- Rendering of one environment variable entry inside `Model.renderEnv`. -/
def renderEnvVar (env : EnvVar) : String :=
  "  " ++ env.Name ++ "\n" ++
    (if env.Value ≠ "" then "    = " ++ env.Value ++ "\n" else "") ++
    (if env.ValueFrom ≠ "" then "    → " ++ env.ValueFrom ++ "\n" else "") ++ "\n"

/-- Rendering of one container section inside `Model.renderEnv`. -/
def renderEnvContainer (containerName : String) (envVars : List EnvVar) : String :=
  "━━━ Container: " ++ containerName ++ " ━━━\n\n" ++
    (if envVars.isEmpty then "  (no environment variables)\n\n"
     else String.join (envVars.map renderEnvVar))

/-- `Model.renderEnv`. -/
def Model.renderEnv (m : Model) : String :=
  if m.selectedResource = "" then "Select a pod to view environment variables"
  else
    match m.currentEnvVars with
    | none => "Loading environment variables for " ++ m.selectedResource ++ "..."
    | some ev =>
        if ev.Containers.isEmpty then
          "No environment variables found for " ++ ev.PodName
        else
          "Environment Variables for: " ++ ev.PodName ++ "\n" ++
            "Namespace: " ++ ev.Namespace ++ "\n\n" ++
            String.join (ev.Containers.map (fun c => renderEnvContainer c.1 c.2))

/-- `Model.renderConfig`. -/
def Model.renderConfig (m : Model) : String :=
  if m.selectedResource = "" then "Select a resource to view YAML configuration"
  else if m.currentYAML = "" then "Loading YAML for " ++ m.selectedResource ++ "..."
  else
    "YAML Configuration for " ++ m.selectedResourceType ++ ": " ++ m.selectedResource ++
      " (Namespace: " ++ m.currentNamespace ++ ")\n\n" ++ m.currentYAML

/-- Go map assignment `m[key] = pf` on the port-forward registry. -/
def upsertPF (reg : List (String × PortForward)) (key : String) (pf : PortForward) :
    List (String × PortForward) :=
  if reg.any (fun e => e.1 = key) then
    reg.map (fun e => if e.1 = key then (key, pf) else e)
  else
    reg ++ [(key, pf)]

/-- `Model.performConfirmedAction`: executes the confirmed mutating action
against the backend; on failure only the status line changes and no
follow-up load is issued. -/
def Model.performConfirmedAction (m : Model) : Option (Model × List ACmd) :=
  if m.confirmAction = "delete-pod" then
    match m.k8sManager with
    | none => some ({ m with statusMessage := "Error: k8s manager not initialized" }, [])
    | some mg =>
        match mg.deletePodRes m.confirmResource with
        | some e => some ({ m with statusMessage := "Error deleting pod: " ++ e }, [])
        | none =>
            some ({ m with statusMessage := "Deleted pod: " ++ m.confirmResource }, [.loadPods])
  else if m.confirmAction = "delete-deployment" then
    match m.k8sManager with
    | none => some ({ m with statusMessage := "Error: k8s manager not initialized" }, [])
    | some mg =>
        match mg.deleteDeploymentRes m.confirmResource with
        | some e => some ({ m with statusMessage := "Error deleting deployment: " ++ e }, [])
        | none =>
            some ({ m with statusMessage := "Deleted deployment: " ++ m.confirmResource },
              [.loadDeployments])
  else if m.confirmAction = "scale-up" ∨ m.confirmAction = "scale-down" then
    match m.k8sManager with
    | none => some ({ m with statusMessage := "Error: k8s manager not initialized" }, [])
    | some mg =>
        match mg.scaleDeploymentRes m.confirmResource m.confirmReplicas with
        | some e => some ({ m with statusMessage := "Error scaling: " ++ e }, [])
        | none =>
            some ({ m with statusMessage :=
                      "Scaled " ++ m.confirmResource ++ " to " ++
                        toString m.confirmReplicas ++ " replicas" },
              [.loadDeployments])
  else
    some ({ m with statusMessage := "Unknown action" }, [])

/-- The final "update active viewport" step of `Model.Update`: the viewport of
the (possibly just changed) active tab receives the message. -/
def Model.viewportStep (m : Model) (k : String) : Model :=
  match m.activeTab with
  | .logsTab => { m with logsViewport := m.logsViewport.update k }
  | .statsTab => { m with statsViewport := m.statsViewport.update k }
  | .envTab => { m with envViewport := m.envViewport.update k }
  | .configTab => { m with configViewport := m.configViewport.update k }
  | _ => m

/-- The fall-through tail of `Model.Update` for key events no case of the key
switch matched: the focused category's list consumes the key, auto-selection
side effects fire when the cursor lands on a different item, and finally the
active tab's viewport consumes the key.  `none` models the nil-pointer panic
of the unguarded `m.k8sManager.SetNamespace` call. -/
def Model.navFall (m : Model) (k : String) : Option (Model × List ACmd) :=
  match m.activeCategory with
  | .namespacesCategory =>
      let l := m.namespacesList.update k
      let m1 := { m with namespacesList := l }
      match l.selectedItem with
      | some nsName =>
          if m1.currentNamespace ≠ nsName then
            match m1.k8sManager with
            | none => none
            | some mg =>
                some ((Model.viewportStep
                  { m1 with currentNamespace := nsName,
                            k8sManager := some { mg with ns := nsName },
                            statusMessage := "Switched to namespace: " ++ nsName } k),
                  [.loadDeployments, .loadPods, .loadServices])
          else some (m1.viewportStep k, [])
      | none => some (m1.viewportStep k, [])
  | .deploymentsCategory =>
      let l := m.deploymentsList.update k
      let m1 := { m with deploymentsList := l }
      match l.selectedItem with
      | some item =>
          if m1.selectedResource ≠ item.Name then
            some ((Model.viewportStep
              { m1 with selectedResource := item.Name,
                        selectedResourceType := "deployment",
                        statusMessage := "Selected: " ++ item.Name,
                        activeTab := .configTab } k),
              [.loadResourceYAML "deployment" item.Name])
          else some (m1.viewportStep k, [])
      | none => some (m1.viewportStep k, [])
  | .podsCategory =>
      let l := m.podsList.update k
      let m1 := { m with podsList := l }
      match l.selectedItem with
      | some item =>
          if m1.selectedResource ≠ item.Name then
            some ((Model.viewportStep
              { m1 with selectedResource := item.Name,
                        selectedResourceType := "pod",
                        statusMessage := "Selected: " ++ item.Name,
                        activeTab := .logsTab } k),
              [.loadPodLogs item.Name, .loadPodMetrics item.Name,
               .loadPodEnvVars item.Name, .loadResourceYAML "pod" item.Name])
          else some (m1.viewportStep k, [])
      | none => some (m1.viewportStep k, [])
  | .servicesCategory =>
      let l := m.servicesList.update k
      let m1 := { m with servicesList := l }
      match l.selectedItem with
      | some item =>
          if m1.selectedResource ≠ item.Name then
            some ((Model.viewportStep
              { m1 with selectedResource := item.Name,
                        selectedResourceType := "service",
                        statusMessage := "Selected: " ++ item.Name,
                        activeTab := .configTab } k),
              [.loadResourceYAML "service" item.Name])
          else some (m1.viewportStep k, [])
      | none => some (m1.viewportStep k, [])

/-- The `"q"`/`"ctrl+c"` case: stop all port-forwards (registry untouched),
close the systemd manager, quit. -/
def Model.keyQuit (m : Model) : Option (Model × List ACmd) :=
  some (m, [.quit])

/-- The `"?"` case: toggle the help screen. -/
def Model.keyHelpToggle (m : Model) : Option (Model × List ACmd) :=
  some ({ m with showHelp := !m.showHelp }, [])

/-- The `"tab"` case: cycle the active category forward. -/
def Model.keyTabCycle (m : Model) : Option (Model × List ACmd) :=
  some ({ m with activeCategory := m.activeCategory.next }, [])

/-- The `"shift+tab"` case: cycle the active category backward. -/
def Model.keyShiftTabCycle (m : Model) : Option (Model × List ACmd) :=
  some ({ m with activeCategory := m.activeCategory.prev }, [])

/-- The `"1"` case: jump to the namespaces category. -/
def Model.keyJump1 (m : Model) : Option (Model × List ACmd) :=
  some ({ m with activeCategory := .namespacesCategory }, [])

/-- The `"2"` case: jump to deployments and auto-select the deployment under
the cursor. -/
def Model.keyJump2 (m : Model) : Option (Model × List ACmd) :=
  match m.deploymentsList.selectedItem with
  | some item =>
      some ({ m with activeCategory := .deploymentsCategory,
                     selectedResource := item.Name,
                     selectedResourceType := "deployment",
                     activeTab := .configTab },
        [.loadResourceYAML "deployment" item.Name])
  | none => some ({ m with activeCategory := .deploymentsCategory }, [])

/-- The `"3"` case: jump to pods and auto-select the pod under the cursor. -/
def Model.keyJump3 (m : Model) : Option (Model × List ACmd) :=
  match m.podsList.selectedItem with
  | some item =>
      some ({ m with activeCategory := .podsCategory,
                     selectedResource := item.Name,
                     selectedResourceType := "pod",
                     activeTab := .logsTab },
        [.loadPodLogs item.Name, .loadPodMetrics item.Name,
         .loadPodEnvVars item.Name, .loadResourceYAML "pod" item.Name])
  | none => some ({ m with activeCategory := .podsCategory }, [])

/-- The `"4"` case: jump to services and auto-select the service under the
cursor. -/
def Model.keyJump4 (m : Model) : Option (Model × List ACmd) :=
  match m.servicesList.selectedItem with
  | some item =>
      some ({ m with activeCategory := .servicesCategory,
                     selectedResource := item.Name,
                     selectedResourceType := "service",
                     activeTab := .configTab },
        [.loadResourceYAML "service" item.Name])
  | none => some ({ m with activeCategory := .servicesCategory }, [])

/-- The tab-switch cases `"l"`, `"s"`, `"e"`, `"c"`, `"t"`, `"x"`. -/
def Model.keySetTab (m : Model) (t : RightPaneTab) : Option (Model × List ACmd) :=
  some ({ m with activeTab := t }, [])

/-- The `"r"` case: manual refresh of all four lists. -/
def Model.keyRefresh (m : Model) : Option (Model × List ACmd) :=
  some ({ m with statusMessage := "Refreshing..." },
    [.loadNamespaces, .loadDeployments, .loadPods, .loadServices])

/-- The `"enter"` case.  Selecting a namespace calls the unguarded
`m.k8sManager.SetNamespace` (`none` = nil dereference). -/
def Model.keyEnter (m : Model) : Option (Model × List ACmd) :=
  match m.activeCategory with
  | .namespacesCategory =>
      match m.namespacesList.selectedItem with
      | some nsName =>
          match m.k8sManager with
          | none => none
          | some mg =>
              some ({ m with currentNamespace := nsName,
                             k8sManager := some { mg with ns := nsName },
                             statusMessage := "Switched to namespace: " ++ nsName,
                             activeCategory := .podsCategory },
                [.loadDeployments, .loadPods, .loadServices])
      | none => some (m, [])
  | .deploymentsCategory =>
      match m.deploymentsList.selectedItem with
      | some item =>
          some ({ m with selectedResource := item.Name,
                         selectedResourceType := "deployment",
                         statusMessage := "Selected deployment: " ++ item.Name,
                         activeTab := .configTab },
            [.loadResourceYAML "deployment" item.Name])
      | none => some (m, [])
  | .podsCategory =>
      match m.podsList.selectedItem with
      | some item =>
          some ({ m with selectedResource := item.Name,
                         selectedResourceType := "pod",
                         statusMessage := "Selected: " ++ item.Name,
                         activeTab := .logsTab },
            [.loadPodLogs item.Name, .loadPodMetrics item.Name,
             .loadPodEnvVars item.Name, .loadResourceYAML "pod" item.Name])
      | none => some (m, [])
  | .servicesCategory => some (m, [])

/-- The `"d"` case: open the delete confirmation dialog for the selected
pod or deployment. -/
def Model.keyDelete (m : Model) : Option (Model × List ACmd) :=
  if m.activeCategory = .podsCategory then
    match m.podsList.selectedItem with
    | some item =>
        some ({ m with showConfirmDialog := true,
                       confirmAction := "delete-pod",
                       confirmResource := item.Name }, [])
    | none => some (m, [])
  else if m.activeCategory = .deploymentsCategory then
    match m.deploymentsList.selectedItem with
    | some item =>
        some ({ m with showConfirmDialog := true,
                       confirmAction := "delete-deployment",
                       confirmResource := item.Name }, [])
    | none => some (m, [])
  else some (m, [])

/-- The `"+"`/`"="` case: open the scale-up confirmation dialog targeting
one replica more than currently displayed. -/
def Model.keyScaleUp (m : Model) : Option (Model × List ACmd) :=
  if m.activeCategory = .deploymentsCategory then
    match m.deploymentsList.selectedItem with
    | some item =>
        some ({ m with showConfirmDialog := true,
                       confirmAction := "scale-up",
                       confirmResource := item.Name,
                       confirmReplicas := item.Replicas + 1 }, [])
    | none => some (m, [])
  else some (m, [])

/-- The `"-"`/`"_"` case: open the scale-down confirmation dialog targeting
one replica less, refused outright when the displayed count is already 0. -/
def Model.keyScaleDown (m : Model) : Option (Model × List ACmd) :=
  if m.activeCategory = .deploymentsCategory then
    match m.deploymentsList.selectedItem with
    | some item =>
        if item.Replicas > 0 then
          some ({ m with showConfirmDialog := true,
                         confirmAction := "scale-down",
                         confirmResource := item.Name,
                         confirmReplicas := item.Replicas - 1 }, [])
        else some (m, [])
    | none => some (m, [])
  else some (m, [])

/-- The `"p"` case: start a port-forward (8080 -> 80) for the selected pod. -/
def Model.keyPortForwardStart (m : Model) : Option (Model × List ACmd) :=
  if m.activeCategory = .podsCategory then
    match m.podsList.selectedItem with
    | some item =>
        match m.k8sManager with
        | none => some (m, [])
        | some mg =>
            match mg.startPortForwardRes item.Name "8080" "80" with
            | .error e =>
                some ({ m with statusMessage := "Error starting port-forward: " ++ e }, [])
            | .ok pf =>
                some ({ m with
                          activePortForwards :=
                            upsertPF m.activePortForwards (item.Name ++ ":8080") pf,
                          statusMessage :=
                            "Port-forward started: localhost:8080 -> " ++
                              item.Name ++ ":80" }, [])
    | none => some (m, [])
  else some (m, [])

/-- The `"P"` case: stop and clear all port-forwards. -/
def Model.keyPortForwardStopAll (m : Model) : Option (Model × List ACmd) :=
  match m.k8sManager with
  | some _ =>
      some ({ m with activePortForwards := [],
                     statusMessage := "Stopped all port-forwards" }, [])
  | none => some (m, [])

/-- The key switch of `Model.Update` in normal mode (no dialog, no help
screen), mirroring the Go `switch msg.String()` case by case in order. -/
def Model.keySwitch (m : Model) (k : String) : Option (Model × List ACmd) :=
  if k = "ctrl+c" ∨ k = "q" then m.keyQuit
  else if k = "?" then m.keyHelpToggle
  else if k = "tab" then m.keyTabCycle
  else if k = "shift+tab" then m.keyShiftTabCycle
  else if k = "1" then m.keyJump1
  else if k = "2" then m.keyJump2
  else if k = "3" then m.keyJump3
  else if k = "4" then m.keyJump4
  else if k = "l" then m.keySetTab .logsTab
  else if k = "s" then m.keySetTab .statsTab
  else if k = "e" then m.keySetTab .envTab
  else if k = "c" then m.keySetTab .configTab
  else if k = "t" then m.keySetTab .topTab
  else if k = "x" then m.keySetTab .execTab
  else if k = "r" then m.keyRefresh
  else if k = "enter" then m.keyEnter
  else if k = "d" then m.keyDelete
  else if k = "+" ∨ k = "=" then m.keyScaleUp
  else if k = "-" ∨ k = "_" then m.keyScaleDown
  else if k = "p" then m.keyPortForwardStart
  else if k = "P" then m.keyPortForwardStopAll
  else m.navFall k

/-- The `tea.WindowSizeMsg` branch of `Model.Update`: stores the dimensions,
computes the pane geometry and resizes lists and viewports. -/
def Model.applyResize (m : Model) (w h : Int) : Model :=
  let leftPaneWidth := w.tdiv 3
  let rightPaneWidth := w - leftPaneWidth - 4
  let totalAvailable := h - 6
  let sectionHeight0 := totalAvailable.tdiv 4 - 2
  let sectionHeight := if sectionHeight0 < 3 then 3 else sectionHeight0
  let m1 := { m with
                width := w, height := h, ready := true,
                namespacesList := m.namespacesList.setSize (leftPaneWidth - 4) sectionHeight,
                deploymentsList := m.deploymentsList.setSize (leftPaneWidth - 4) sectionHeight,
                podsList := m.podsList.setSize (leftPaneWidth - 4) sectionHeight,
                servicesList := m.servicesList.setSize (leftPaneWidth - 4) sectionHeight }
  if !m.logsViewport.highPerformanceRendering then
    { m1 with logsViewport := Viewport.new (rightPaneWidth - 4) (h - 12),
              statsViewport := Viewport.new (rightPaneWidth - 4) (h - 12),
              envViewport := Viewport.new (rightPaneWidth - 4) (h - 12),
              configViewport := Viewport.new (rightPaneWidth - 4) (h - 12) }
  else
    { m1 with
        logsViewport := { m.logsViewport with width := rightPaneWidth - 4, height := h - 12 },
        statsViewport := { m.statsViewport with width := rightPaneWidth - 4, height := h - 12 },
        envViewport := { m.envViewport with width := rightPaneWidth - 4, height := h - 12 },
        configViewport := { m.configViewport with width := rightPaneWidth - 4, height := h - 12 } }

/-- The `namespacesLoadedMsg` branch of `Model.Update`. -/
def Model.onNamespacesLoaded (m : Model) (res : Except String (List String)) :
    Option (Model × List ACmd) :=
  match res with
  | .error e => some ({ m with statusMessage := "Error loading namespaces: " ++ e }, [])
  | .ok nss =>
      some ({ m with namespaces := nss,
                     namespacesList := m.namespacesList.setItems nss }, [])

/-- The `deploymentsLoadedMsg` branch of `Model.Update`. -/
def Model.onDeploymentsLoaded (m : Model) (res : Except String (List DeploymentInfo)) :
    Option (Model × List ACmd) :=
  match res with
  | .error e => some ({ m with statusMessage := "Error loading deployments: " ++ e }, [])
  | .ok ds =>
      some ({ m with deployments := ds,
                     deploymentsList := m.deploymentsList.setItems ds }, [])

/-- The `podsLoadedMsg` branch of `Model.Update`. -/
def Model.onPodsLoaded (m : Model) (res : Except String (List PodInfo)) :
    Option (Model × List ACmd) :=
  match res with
  | .error e => some ({ m with statusMessage := "Error loading pods: " ++ e }, [])
  | .ok ps =>
      if m.statusMessage = "Refreshing..." then
        some ({ m with pods := ps, podsList := m.podsList.setItems ps,
                       statusMessage :=
                         "Loaded " ++ toString ps.length ++ " pods from " ++
                           m.currentNamespace }, [])
      else
        some ({ m with pods := ps, podsList := m.podsList.setItems ps }, [])

/-- The `servicesLoadedMsg` branch of `Model.Update`. -/
def Model.onServicesLoaded (m : Model) (res : Except String (List ServiceInfo)) :
    Option (Model × List ACmd) :=
  match res with
  | .error e => some ({ m with statusMessage := "Error loading services: " ++ e }, [])
  | .ok ss =>
      some ({ m with services := ss,
                     servicesList := m.servicesList.setItems ss }, [])

/-- The `podLogsLoadedMsg` branch of `Model.Update`. -/
def Model.onPodLogsLoaded (m : Model) (res : Except String String) :
    Option (Model × List ACmd) :=
  match res with
  | .error e =>
      some ({ m with logsViewport := m.logsViewport.setContent ("Error: " ++ e) }, [])
  | .ok logs =>
      some ({ m with logsViewport := (m.logsViewport.setContent logs).gotoBottom }, [])

/-- The `podMetricsLoadedMsg` branch of `Model.Update`. -/
def Model.onPodMetricsLoaded (m : Model) (res : Except String PodMetrics) :
    Option (Model × List ACmd) :=
  match res with
  | .error _ =>
      some ({ m with currentMetrics := none,
                     statsViewport :=
                       m.statsViewport.setContent
                         (metricsUnavailableText m.selectedResource) }, [])
  | .ok mt =>
      some ({ m with currentMetrics := some mt,
                     statsViewport :=
                       m.statsViewport.setContent
                         (Model.renderStats { m with currentMetrics := some mt }) }, [])

/-- The `podEnvVarsLoadedMsg` branch of `Model.Update`. -/
def Model.onPodEnvVarsLoaded (m : Model) (res : Except String PodEnvVars) :
    Option (Model × List ACmd) :=
  match res with
  | .error e =>
      some ({ m with currentEnvVars := none,
                     envViewport :=
                       m.envViewport.setContent
                         ("Error loading environment variables: " ++ e) }, [])
  | .ok ev =>
      some ({ m with currentEnvVars := some ev,
                     envViewport :=
                       m.envViewport.setContent
                         (Model.renderEnv { m with currentEnvVars := some ev }) }, [])

/-- The `resourceYAMLLoadedMsg` branch of `Model.Update`. -/
def Model.onResourceYAMLLoaded (m : Model) (res : Except String String) :
    Option (Model × List ACmd) :=
  match res with
  | .error e =>
      some ({ m with currentYAML := "Error loading YAML: " ++ e,
                     configViewport :=
                       m.configViewport.setContent ("Error loading YAML: " ++ e) }, [])
  | .ok y =>
      some ({ m with currentYAML := y,
                     configViewport :=
                       m.configViewport.setContent
                         (Model.renderConfig { m with currentYAML := y }) }, [])

/-- `Model.Update`: the event-to-state reducer.  The result is the new model
and the list of follow-up commands; `none` models a nil-pointer panic. -/
def Model.Update (m : Model) (msg : Msg) : Option (Model × List ACmd) :=
  match msg with
  | .key k =>
      if m.showConfirmDialog then
        if k = "y" ∨ k = "Y" then
          Model.performConfirmedAction { m with showConfirmDialog := false }
        else if k = "n" ∨ k = "N" ∨ k = "esc" ∨ k = "q" then
          some ({ m with showConfirmDialog := false,
                         statusMessage := "Action cancelled" }, [])
        else
          some (m, [])
      else if m.showHelp then
        if k = "?" ∨ k = "q" ∨ k = "esc" then
          some ({ m with showHelp := false }, [])
        else
          some (m, [])
      else
        m.keySwitch k
  | .namespacesLoaded res => m.onNamespacesLoaded res
  | .deploymentsLoaded res => m.onDeploymentsLoaded res
  | .podsLoaded res => m.onPodsLoaded res
  | .servicesLoaded res => m.onServicesLoaded res
  | .podLogsLoaded res => m.onPodLogsLoaded res
  | .podMetricsLoaded res => m.onPodMetricsLoaded res
  | .podEnvVarsLoaded res => m.onPodEnvVarsLoaded res
  | .resourceYAMLLoaded res => m.onResourceYAMLLoaded res
  | .tick =>
      some (m, [.loadDeployments, .loadPods, .loadServices, .tick])
  | .windowSize w h =>
      some (m.applyResize w h, [])

/-! List-row truncation of `compactDelegate.Render`.  Row strings are
modelled as lists of unit-width characters; `lipgloss.Width` is the list
length. -/

/-- The ellipsis appended after trimming (`"..."`). -/
def ellipsisChars : List Char := ['.', '.', '.']

/-- The trimming loop of `compactDelegate.Render`, with an explicit fuel
bound for structural recursion (each pass drops one trailing character, so
`s.length` passes always suffice): while the string plus the three-character
ellipsis is still wider than `maxWidth` and the string is nonempty, drop one
trailing character. -/
def truncFitAux (fuel : Nat) (s : List Char) (maxWidth : Int) : List Char :=
  match fuel with
  | 0 => s
  | n + 1 =>
      if (s.length : Int) + 3 > maxWidth ∧ s ≠ [] then
        truncFitAux n s.dropLast maxWidth
      else
        s

/-- The trimming loop of `compactDelegate.Render`. -/
def truncFitLoop (s : List Char) (maxWidth : Int) : List Char :=
  truncFitAux s.length s maxWidth

/-- The truncation step of `compactDelegate.Render`: a row wider than the
pane's inner width `maxWidth` is trimmed and suffixed with an ellipsis, but
only when `maxWidth > 3`; otherwise the row is rendered unchanged. -/
def renderTruncate (s : List Char) (maxWidth : Int) : List Char :=
  if (s.length : Int) > maxWidth ∧ maxWidth > 3 then
    truncFitLoop s maxWidth ++ ellipsisChars
  else
    s

/-! The `LogViewer` component (`internal/ui/logviewer.go`). -/

/-- `ui.LogViewer`. -/
structure LogViewer where
  viewport : Viewport
  title : String
  content : String
  width : Int
  height : Int
  autoScroll : Bool
  ready : Bool

/-- `NewLogViewer`. -/
def NewLogViewer (title : String) : LogViewer :=
  { viewport := Viewport.new 0 0, title := title, content := "",
    width := 0, height := 0, autoScroll := true, ready := false }

/-- `LogViewer.SetContent`. -/
def LogViewer.SetContent (lv : LogViewer) (c : String) : LogViewer :=
  let v := lv.viewport.setContent c
  let v := if lv.autoScroll then v.gotoBottom else v
  { lv with content := c, viewport := v }

/-- `LogViewer.AppendContent`: prior nonempty content is kept, separated by a
newline; empty prior content is replaced outright. -/
def LogViewer.AppendContent (lv : LogViewer) (n : String) : LogViewer :=
  let c := if lv.content ≠ "" then lv.content ++ "\n" ++ n else n
  LogViewer.SetContent { lv with content := c } c

/-- `LogViewer.GetContent`. -/
def LogViewer.GetContent (lv : LogViewer) : String :=
  lv.content

/-! Safety predicates and geometry extraction used by the statements. -/

/-- The reachable-state invariant behind nil-manager safety: when the
backend manager failed to initialize, the namespaces list pane is empty
(its loads always short-circuit with an error, so it is never populated),
which keeps the unguarded `SetNamespace` call sites unreachable. -/
def NilSafe (m : Model) : Prop :=
  m.k8sManager = none → m.namespacesList.items = []

/-- A message the event loop can actually receive given the (possibly
absent) backend manager: any external event (key, resize, timer tick), or a
result event some dispatched command produces against that manager. -/
def admissibleMsg (mgr : Option Manager) : Msg → Prop
  | .key _ => True
  | .windowSize _ _ => True
  | .tick => True
  | msg => ∃ c : ACmd, runACmd mgr c = some msg

/-- The pane geometry of a model: list pane sizes then viewport sizes, in
order.  Two models agree on geometry iff every pane and viewport has the
same width and height. -/
def Model.geometry (m : Model) : List Int :=
  [m.namespacesList.width, m.namespacesList.height,
   m.deploymentsList.width, m.deploymentsList.height,
   m.podsList.width, m.podsList.height,
   m.servicesList.width, m.servicesList.height,
   m.logsViewport.width, m.logsViewport.height,
   m.statsViewport.width, m.statsViewport.height,
   m.envViewport.width, m.envViewport.height,
   m.configViewport.width, m.configViewport.height]

/-! Concrete fixtures for witnesses and counterexamples. -/

/-- A concrete deployment with three replicas. -/
def testDeployment : DeploymentInfo :=
  { Name := "web", Namespace := "default", Ready := "3/3",
    UpToDate := 3, Available := 3, Replicas := 3 }

/-- A concrete deployment with zero replicas. -/
def testDeploymentZero : DeploymentInfo :=
  { Name := "idle", Namespace := "default", Ready := "0/0",
    UpToDate := 0, Available := 0, Replicas := 0 }

/-- A concrete pod. -/
def testPod : PodInfo :=
  { Name := "web-7f9c", Namespace := "default", Status := "Running",
    Ready := "1/1", Restarts := 0, Age := "1d" }

/-- A second concrete pod, for cursor-move fixtures. -/
def testPodB : PodInfo :=
  { Name := "api-11aa", Namespace := "default", Status := "Running",
    Ready := "1/1", Restarts := 0, Age := "2d" }

/-- A concrete service. -/
def testService : ServiceInfo :=
  { Name := "web-svc", Namespace := "default", svcType := "ClusterIP",
    ClusterIP := "10.0.0.1", ExternalIP := "", Ports := "80/TCP" }

/-- A backend oracle whose mutating calls all fail with the error text
"boom"; list and read calls succeed with empty payloads. -/
def testManagerErr : Manager :=
  { ns := "default"
    listNamespacesRes := .ok ["default"]
    listDeploymentsRes := .ok []
    listPodsRes := .ok []
    listServicesRes := .ok []
    podLogsRes := fun _ => .ok ""
    podMetricsRes := fun _ => .error "metrics unavailable"
    podEnvVarsRes := fun _ => .error "no env"
    podYAMLRes := fun _ => .ok ""
    deploymentYAMLRes := fun _ => .ok ""
    serviceYAMLRes := fun _ => .ok ""
    deletePodRes := fun _ => some "boom"
    deleteDeploymentRes := fun _ => some "boom"
    scaleDeploymentRes := fun _ _ => some "boom"
    startPortForwardRes := fun _ _ _ => .error "boom" }

/-- The initial model when `k8s.NewManager` failed: the manager handle is
absent. -/
def errModel : Model :=
  initModel (.error "no kubeconfig")

/-- The initial model with the failing-mutations backend connected. -/
def okModel : Model :=
  initModel (.ok testManagerErr)

/-- Fixture for the tab-cycling counterexample: namespaces focused, one
deployment loaded and under the deployments cursor. -/
def c3Model : Model :=
  { errModel with
      deploymentsList := { items := [testDeployment], index := 0, width := 20, height := 3 } }

/-- Fixture for the scale claims: deployments focused, one deployment
selected. -/
def c5Model : Model :=
  { errModel with
      activeCategory := .deploymentsCategory,
      deploymentsList := { items := [testDeployment], index := 0, width := 20, height := 3 } }

/-- Fixture for the confirmed-action error path: backend connected, a
delete-pod action pending confirmation. -/
def c8Model : Model :=
  { okModel with
      showConfirmDialog := true,
      confirmAction := "delete-pod", confirmResource := "web-7f9c" }

/-- Fixture for the cursor-move claims: pods focused, two pods loaded,
cursor on the first, selection context naming the first pod, and the user
on the Config tab. -/
def c10Model : Model :=
  { errModel with
      activeCategory := .podsCategory,
      podsList := { items := [testPod, testPodB], index := 0, width := 20, height := 3 },
      selectedResource := "web-7f9c",
      selectedResourceType := "pod",
      activeTab := .configTab }

/-- Fixture with the confirmation dialog showing. -/
def c1Model : Model :=
  { errModel with
      showConfirmDialog := true, confirmAction := "delete-pod", confirmResource := "web-7f9c" }

/-- Fixture with the help screen showing. -/
def c1HelpModel : Model :=
  { errModel with showHelp := true }

/-- A log viewer holding one line of content. -/
def testViewer : LogViewer :=
  (NewLogViewer "Logs").SetContent "line1"

/-! Helper lemmas shared by the claim theorems. -/

theorem ite_lt_three_eq_max (s : Int) : (if s < 3 then 3 else s) = max 3 s := by
  rcases lt_or_le s 3 with h | h
  · rw [if_pos h, max_eq_left h.le]
  · rw [if_neg (not_lt.mpr h), max_eq_right h]

@[simp]
theorem ListModel.update_items {α : Type} (l : ListModel α) (k : String) :
    (l.update k).items = l.items := by
  unfold ListModel.update
  split_ifs <;> rfl

theorem ListModel.selectedItem_of_nil {α : Type} (l : ListModel α)
    (h : l.items = []) : l.selectedItem = none := by
  simp [ListModel.selectedItem, h]

@[simp]
theorem Model.viewportStep_showConfirmDialog (m : Model) (k : String) :
    (m.viewportStep k).showConfirmDialog = m.showConfirmDialog := by
  unfold Model.viewportStep
  split <;> rfl

@[simp]
theorem Model.viewportStep_k8sManager (m : Model) (k : String) :
    (m.viewportStep k).k8sManager = m.k8sManager := by
  unfold Model.viewportStep
  split <;> rfl

@[simp]
theorem Model.viewportStep_namespacesList (m : Model) (k : String) :
    (m.viewportStep k).namespacesList = m.namespacesList := by
  unfold Model.viewportStep
  split <;> rfl

@[simp]
theorem Model.viewportStep_activeTab (m : Model) (k : String) :
    (m.viewportStep k).activeTab = m.activeTab := by
  unfold Model.viewportStep
  split <;> rfl

@[simp]
theorem Model.viewportStep_selectedResource (m : Model) (k : String) :
    (m.viewportStep k).selectedResource = m.selectedResource := by
  unfold Model.viewportStep
  split <;> rfl

@[simp]
theorem Model.viewportStep_selectedResourceType (m : Model) (k : String) :
    (m.viewportStep k).selectedResourceType = m.selectedResourceType := by
  unfold Model.viewportStep
  split <;> rfl

@[simp]
theorem Model.viewportStep_confirmAction (m : Model) (k : String) :
    (m.viewportStep k).confirmAction = m.confirmAction := by
  unfold Model.viewportStep
  split <;> rfl

@[simp]
theorem Model.viewportStep_confirmReplicas (m : Model) (k : String) :
    (m.viewportStep k).confirmReplicas = m.confirmReplicas := by
  unfold Model.viewportStep
  split <;> rfl

/-- The trimming loop shortens a too-wide row to exactly `maxWidth - 3`
characters when the inner width leaves room for the ellipsis. -/
theorem truncFitAux_length (n : Nat) :
    ∀ (s : List Char) (maxW : Int), 3 < maxW → maxW ≤ (s.length : Int) + 3 →
      s.length ≤ n → ((truncFitAux n s maxW).length : Int) = maxW - 3 := by
  induction n with
  | zero =>
      intro s maxW h3 hub hn
      have hz : s.length = 0 := Nat.le_zero.mp hn
      rw [hz] at hub
      omega
  | succ n ih =>
      intro s maxW h3 hub hn
      rw [truncFitAux]
      by_cases hc : ((s.length : Int) + 3 > maxW ∧ s ≠ [])
      · rw [if_pos hc]
        have hpos : 0 < s.length := List.length_pos.mpr hc.2
        apply ih
        · exact h3
        · rw [List.length_dropLast]
          omega
        · rw [List.length_dropLast]
          omega
      · rw [if_neg hc]
        rcases not_and_or.mp hc with h | h
        · omega
        · have hz : s.length = 0 := by
            have : s = [] := not_not.mp h
            rw [this]
            rfl
          rw [hz] at hub
          omega

/-- Length of the full trimming loop on a too-wide row. -/
theorem truncFitLoop_length (s : List Char) (maxW : Int) (h3 : 3 < maxW)
    (hub : maxW ≤ (s.length : Int) + 3) :
    ((truncFitLoop s maxW).length : Int) = maxW - 3 :=
  truncFitAux_length s.length s maxW h3 hub le_rfl

theorem performConfirmedAction_no_tick (m : Model) (p : Model × List ACmd)
    (h : m.performConfirmedAction = some p) : ACmd.tick ∉ p.2 := by
  unfold Model.performConfirmedAction at h
  repeat' split at h
  all_goals (try cases h) <;> simp

theorem navFall_no_tick (m : Model) (k : String) (p : Model × List ACmd)
    (h : m.navFall k = some p) : ACmd.tick ∉ p.2 := by
  unfold Model.navFall at h
  repeat' (first | (split at h) | (simp only [] at h))
  all_goals (try cases h) <;> simp

theorem keyQuit_no_tick (m : Model) (p : Model × List ACmd)
    (h : m.keyQuit = some p) : ACmd.tick ∉ p.2 := by
  unfold Model.keyQuit at h
  cases h
  simp

theorem keyHelpToggle_no_tick (m : Model) (p : Model × List ACmd)
    (h : m.keyHelpToggle = some p) : ACmd.tick ∉ p.2 := by
  unfold Model.keyHelpToggle at h
  cases h
  simp

theorem keyTabCycle_no_tick (m : Model) (p : Model × List ACmd)
    (h : m.keyTabCycle = some p) : ACmd.tick ∉ p.2 := by
  unfold Model.keyTabCycle at h
  cases h
  simp

theorem keyShiftTabCycle_no_tick (m : Model) (p : Model × List ACmd)
    (h : m.keyShiftTabCycle = some p) : ACmd.tick ∉ p.2 := by
  unfold Model.keyShiftTabCycle at h
  cases h
  simp

theorem keyJump1_no_tick (m : Model) (p : Model × List ACmd)
    (h : m.keyJump1 = some p) : ACmd.tick ∉ p.2 := by
  unfold Model.keyJump1 at h
  cases h
  simp

theorem keyJump2_no_tick (m : Model) (p : Model × List ACmd)
    (h : m.keyJump2 = some p) : ACmd.tick ∉ p.2 := by
  unfold Model.keyJump2 at h
  repeat' split at h
  all_goals (try cases h) <;> simp

theorem keyJump3_no_tick (m : Model) (p : Model × List ACmd)
    (h : m.keyJump3 = some p) : ACmd.tick ∉ p.2 := by
  unfold Model.keyJump3 at h
  repeat' split at h
  all_goals (try cases h) <;> simp

theorem keyJump4_no_tick (m : Model) (p : Model × List ACmd)
    (h : m.keyJump4 = some p) : ACmd.tick ∉ p.2 := by
  unfold Model.keyJump4 at h
  repeat' split at h
  all_goals (try cases h) <;> simp

theorem keySetTab_no_tick (m : Model) (t : RightPaneTab) (p : Model × List ACmd)
    (h : m.keySetTab t = some p) : ACmd.tick ∉ p.2 := by
  unfold Model.keySetTab at h
  cases h
  simp

theorem keyRefresh_no_tick (m : Model) (p : Model × List ACmd)
    (h : m.keyRefresh = some p) : ACmd.tick ∉ p.2 := by
  unfold Model.keyRefresh at h
  cases h
  simp

theorem keyEnter_no_tick (m : Model) (p : Model × List ACmd)
    (h : m.keyEnter = some p) : ACmd.tick ∉ p.2 := by
  unfold Model.keyEnter at h
  repeat' split at h
  all_goals (try cases h) <;> simp

theorem keyDelete_no_tick (m : Model) (p : Model × List ACmd)
    (h : m.keyDelete = some p) : ACmd.tick ∉ p.2 := by
  unfold Model.keyDelete at h
  repeat' split at h
  all_goals (try cases h) <;> simp

theorem keyScaleUp_no_tick (m : Model) (p : Model × List ACmd)
    (h : m.keyScaleUp = some p) : ACmd.tick ∉ p.2 := by
  unfold Model.keyScaleUp at h
  repeat' split at h
  all_goals (try cases h) <;> simp

theorem keyScaleDown_no_tick (m : Model) (p : Model × List ACmd)
    (h : m.keyScaleDown = some p) : ACmd.tick ∉ p.2 := by
  unfold Model.keyScaleDown at h
  repeat' split at h
  all_goals (try cases h) <;> simp

theorem keyPortForwardStart_no_tick (m : Model) (p : Model × List ACmd)
    (h : m.keyPortForwardStart = some p) : ACmd.tick ∉ p.2 := by
  unfold Model.keyPortForwardStart at h
  repeat' split at h
  all_goals (try cases h) <;> simp

theorem keyPortForwardStopAll_no_tick (m : Model) (p : Model × List ACmd)
    (h : m.keyPortForwardStopAll = some p) : ACmd.tick ∉ p.2 := by
  unfold Model.keyPortForwardStopAll at h
  repeat' split at h
  all_goals (try cases h) <;> simp

/-- Case analysis principle for the normal-mode key switch: a property of
the reducer result holds for every key once it holds for each case handler
(under that case's key condition) and for the fall-through. -/
theorem keySwitch_cases (m : Model) (k : String) (P : Option (Model × List ACmd) → Prop)
    (cQuit : k = "ctrl+c" ∨ k = "q" → P m.keyQuit)
    (cHelp : k = "?" → P m.keyHelpToggle)
    (cTab : k = "tab" → P m.keyTabCycle)
    (cShiftTab : k = "shift+tab" → P m.keyShiftTabCycle)
    (c1 : k = "1" → P m.keyJump1)
    (c2 : k = "2" → P m.keyJump2)
    (c3 : k = "3" → P m.keyJump3)
    (c4 : k = "4" → P m.keyJump4)
    (cTabs : ∀ t, P (m.keySetTab t))
    (cR : k = "r" → P m.keyRefresh)
    (cEnter : k = "enter" → P m.keyEnter)
    (cDel : k = "d" → P m.keyDelete)
    (cUp : k = "+" ∨ k = "=" → P m.keyScaleUp)
    (cDown : k = "-" ∨ k = "_" → P m.keyScaleDown)
    (cPf : k = "p" → P m.keyPortForwardStart)
    (cPfStop : k = "P" → P m.keyPortForwardStopAll)
    (cNav : P (m.navFall k)) : P (m.keySwitch k) := by
  unfold Model.keySwitch
  by_cases hk1 : k = "ctrl+c" ∨ k = "q"
  · rw [if_pos hk1]; exact cQuit hk1
  rw [if_neg hk1]
  by_cases hk2 : k = "?"
  · rw [if_pos hk2]; exact cHelp hk2
  rw [if_neg hk2]
  by_cases hk3 : k = "tab"
  · rw [if_pos hk3]; exact cTab hk3
  rw [if_neg hk3]
  by_cases hk4 : k = "shift+tab"
  · rw [if_pos hk4]; exact cShiftTab hk4
  rw [if_neg hk4]
  by_cases hk5 : k = "1"
  · rw [if_pos hk5]; exact c1 hk5
  rw [if_neg hk5]
  by_cases hk6 : k = "2"
  · rw [if_pos hk6]; exact c2 hk6
  rw [if_neg hk6]
  by_cases hk7 : k = "3"
  · rw [if_pos hk7]; exact c3 hk7
  rw [if_neg hk7]
  by_cases hk8 : k = "4"
  · rw [if_pos hk8]; exact c4 hk8
  rw [if_neg hk8]
  by_cases hk9 : k = "l"
  · rw [if_pos hk9]; exact cTabs _
  rw [if_neg hk9]
  by_cases hk10 : k = "s"
  · rw [if_pos hk10]; exact cTabs _
  rw [if_neg hk10]
  by_cases hk11 : k = "e"
  · rw [if_pos hk11]; exact cTabs _
  rw [if_neg hk11]
  by_cases hk12 : k = "c"
  · rw [if_pos hk12]; exact cTabs _
  rw [if_neg hk12]
  by_cases hk13 : k = "t"
  · rw [if_pos hk13]; exact cTabs _
  rw [if_neg hk13]
  by_cases hk14 : k = "x"
  · rw [if_pos hk14]; exact cTabs _
  rw [if_neg hk14]
  by_cases hk15 : k = "r"
  · rw [if_pos hk15]; exact cR hk15
  rw [if_neg hk15]
  by_cases hk16 : k = "enter"
  · rw [if_pos hk16]; exact cEnter hk16
  rw [if_neg hk16]
  by_cases hk17 : k = "d"
  · rw [if_pos hk17]; exact cDel hk17
  rw [if_neg hk17]
  by_cases hk18 : k = "+" ∨ k = "="
  · rw [if_pos hk18]; exact cUp hk18
  rw [if_neg hk18]
  by_cases hk19 : k = "-" ∨ k = "_"
  · rw [if_pos hk19]; exact cDown hk19
  rw [if_neg hk19]
  by_cases hk20 : k = "p"
  · rw [if_pos hk20]; exact cPf hk20
  rw [if_neg hk20]
  by_cases hk21 : k = "P"
  · rw [if_pos hk21]; exact cPfStop hk21
  rw [if_neg hk21]
  exact cNav

theorem keySwitch_no_tick (m : Model) (k : String) (p : Model × List ACmd)
    (h : m.keySwitch k = some p) : ACmd.tick ∉ p.2 := by
  revert h
  refine keySwitch_cases m k
    (fun r => r = some p → ACmd.tick ∉ p.2) ?_ ?_ ?_ ?_ ?_ ?_ ?_ ?_ ?_ ?_ ?_ ?_ ?_ ?_ ?_ ?_ ?_
  · exact fun _ => keyQuit_no_tick m p
  · exact fun _ => keyHelpToggle_no_tick m p
  · exact fun _ => keyTabCycle_no_tick m p
  · exact fun _ => keyShiftTabCycle_no_tick m p
  · exact fun _ => keyJump1_no_tick m p
  · exact fun _ => keyJump2_no_tick m p
  · exact fun _ => keyJump3_no_tick m p
  · exact fun _ => keyJump4_no_tick m p
  · exact fun t => keySetTab_no_tick m t p
  · exact fun _ => keyRefresh_no_tick m p
  · exact fun _ => keyEnter_no_tick m p
  · exact fun _ => keyDelete_no_tick m p
  · exact fun _ => keyScaleUp_no_tick m p
  · exact fun _ => keyScaleDown_no_tick m p
  · exact fun _ => keyPortForwardStart_no_tick m p
  · exact fun _ => keyPortForwardStopAll_no_tick m p
  · exact navFall_no_tick m k p

theorem keyQuit_dialog (m : Model) (p : Model × List ACmd)
    (h : m.keyQuit = some p) : p.1.showConfirmDialog = m.showConfirmDialog := by
  unfold Model.keyQuit at h
  cases h
  rfl

theorem keyHelpToggle_dialog (m : Model) (p : Model × List ACmd)
    (h : m.keyHelpToggle = some p) : p.1.showConfirmDialog = m.showConfirmDialog := by
  unfold Model.keyHelpToggle at h
  cases h
  rfl

theorem keyTabCycle_dialog (m : Model) (p : Model × List ACmd)
    (h : m.keyTabCycle = some p) : p.1.showConfirmDialog = m.showConfirmDialog := by
  unfold Model.keyTabCycle at h
  cases h
  rfl

theorem keyShiftTabCycle_dialog (m : Model) (p : Model × List ACmd)
    (h : m.keyShiftTabCycle = some p) : p.1.showConfirmDialog = m.showConfirmDialog := by
  unfold Model.keyShiftTabCycle at h
  cases h
  rfl

theorem keyJump1_dialog (m : Model) (p : Model × List ACmd)
    (h : m.keyJump1 = some p) : p.1.showConfirmDialog = m.showConfirmDialog := by
  unfold Model.keyJump1 at h
  cases h
  rfl

theorem keyJump2_dialog (m : Model) (p : Model × List ACmd)
    (h : m.keyJump2 = some p) : p.1.showConfirmDialog = m.showConfirmDialog := by
  unfold Model.keyJump2 at h
  repeat' split at h
  all_goals (cases h) <;> rfl

theorem keyJump3_dialog (m : Model) (p : Model × List ACmd)
    (h : m.keyJump3 = some p) : p.1.showConfirmDialog = m.showConfirmDialog := by
  unfold Model.keyJump3 at h
  repeat' split at h
  all_goals (cases h) <;> rfl

theorem keyJump4_dialog (m : Model) (p : Model × List ACmd)
    (h : m.keyJump4 = some p) : p.1.showConfirmDialog = m.showConfirmDialog := by
  unfold Model.keyJump4 at h
  repeat' split at h
  all_goals (cases h) <;> rfl

theorem keySetTab_dialog (m : Model) (t : RightPaneTab) (p : Model × List ACmd)
    (h : m.keySetTab t = some p) : p.1.showConfirmDialog = m.showConfirmDialog := by
  unfold Model.keySetTab at h
  cases h
  rfl

theorem keyRefresh_dialog (m : Model) (p : Model × List ACmd)
    (h : m.keyRefresh = some p) : p.1.showConfirmDialog = m.showConfirmDialog := by
  unfold Model.keyRefresh at h
  cases h
  rfl

theorem keyEnter_dialog (m : Model) (p : Model × List ACmd)
    (h : m.keyEnter = some p) : p.1.showConfirmDialog = m.showConfirmDialog := by
  unfold Model.keyEnter at h
  repeat' split at h
  all_goals (cases h) <;> rfl

theorem keyPortForwardStart_dialog (m : Model) (p : Model × List ACmd)
    (h : m.keyPortForwardStart = some p) : p.1.showConfirmDialog = m.showConfirmDialog := by
  unfold Model.keyPortForwardStart at h
  repeat' split at h
  all_goals (cases h) <;> rfl

theorem keyPortForwardStopAll_dialog (m : Model) (p : Model × List ACmd)
    (h : m.keyPortForwardStopAll = some p) : p.1.showConfirmDialog = m.showConfirmDialog := by
  unfold Model.keyPortForwardStopAll at h
  repeat' split at h
  all_goals (cases h) <;> rfl

theorem navFall_dialog (m : Model) (k : String) (p : Model × List ACmd)
    (h : m.navFall k = some p) : p.1.showConfirmDialog = m.showConfirmDialog := by
  unfold Model.navFall at h
  repeat' (first | (split at h) | (simp only [] at h))
  all_goals (try cases h) <;> simp

/-- The `"d"` handler enters the dialog only with a delete action. -/
theorem keyDelete_dialog_entry (m : Model) (p : Model × List ACmd)
    (hd : m.showConfirmDialog = false) (h : m.keyDelete = some p)
    (hp : p.1.showConfirmDialog = true) :
    p.1.confirmAction = "delete-pod" ∨ p.1.confirmAction = "delete-deployment" := by
  unfold Model.keyDelete at h
  repeat' split at h
  all_goals (cases h; simp_all)

/-- The `"+"`/`"="` handler enters the dialog only from the deployments
category with a selection, targeting one replica more. -/
theorem keyScaleUp_dialog_entry (m : Model) (p : Model × List ACmd)
    (hd : m.showConfirmDialog = false) (h : m.keyScaleUp = some p)
    (hp : p.1.showConfirmDialog = true) :
    m.activeCategory = CategoryType.deploymentsCategory ∧
      p.1.confirmAction = "scale-up" ∧
      ∃ item, m.deploymentsList.selectedItem = some item ∧
        p.1.confirmResource = item.Name ∧
        p.1.confirmReplicas = item.Replicas + 1 := by
  unfold Model.keyScaleUp at h
  repeat' split at h
  all_goals (cases h; simp_all)

/-- The `"-"`/`"_"` handler enters the dialog only from the deployments
category with a selection whose replica count is positive, targeting one
replica less. -/
theorem keyScaleDown_dialog_entry (m : Model) (p : Model × List ACmd)
    (hd : m.showConfirmDialog = false) (h : m.keyScaleDown = some p)
    (hp : p.1.showConfirmDialog = true) :
    m.activeCategory = CategoryType.deploymentsCategory ∧
      p.1.confirmAction = "scale-down" ∧
      ∃ item, m.deploymentsList.selectedItem = some item ∧
        p.1.confirmResource = item.Name ∧
        0 < item.Replicas ∧
        p.1.confirmReplicas = item.Replicas - 1 := by
  unfold Model.keyScaleDown at h
  repeat' split at h
  all_goals (cases h; simp_all)

/-- Entering the confirmation dialog from the no-dialog state happens only
through the delete key or the scale keys, with the corresponding payload. -/
theorem keySwitch_dialog_entry (m : Model) (k : String) (p : Model × List ACmd)
    (hd : m.showConfirmDialog = false) (h : m.keySwitch k = some p)
    (hp : p.1.showConfirmDialog = true) :
    (k = "d" ∧ (p.1.confirmAction = "delete-pod" ∨ p.1.confirmAction = "delete-deployment")) ∨
    ((k = "+" ∨ k = "=") ∧ m.activeCategory = CategoryType.deploymentsCategory ∧
      p.1.confirmAction = "scale-up" ∧
      ∃ item, m.deploymentsList.selectedItem = some item ∧
        p.1.confirmResource = item.Name ∧ p.1.confirmReplicas = item.Replicas + 1) ∨
    ((k = "-" ∨ k = "_") ∧ m.activeCategory = CategoryType.deploymentsCategory ∧
      p.1.confirmAction = "scale-down" ∧
      ∃ item, m.deploymentsList.selectedItem = some item ∧
        p.1.confirmResource = item.Name ∧ 0 < item.Replicas ∧
        p.1.confirmReplicas = item.Replicas - 1) := by
  revert h
  refine keySwitch_cases m k
    (fun r => r = some p →
      (k = "d" ∧ (p.1.confirmAction = "delete-pod" ∨ p.1.confirmAction = "delete-deployment")) ∨
      ((k = "+" ∨ k = "=") ∧ m.activeCategory = CategoryType.deploymentsCategory ∧
        p.1.confirmAction = "scale-up" ∧
        ∃ item, m.deploymentsList.selectedItem = some item ∧
          p.1.confirmResource = item.Name ∧ p.1.confirmReplicas = item.Replicas + 1) ∨
      ((k = "-" ∨ k = "_") ∧ m.activeCategory = CategoryType.deploymentsCategory ∧
        p.1.confirmAction = "scale-down" ∧
        ∃ item, m.deploymentsList.selectedItem = some item ∧
          p.1.confirmResource = item.Name ∧ 0 < item.Replicas ∧
          p.1.confirmReplicas = item.Replicas - 1))
    ?_ ?_ ?_ ?_ ?_ ?_ ?_ ?_ ?_ ?_ ?_ ?_ ?_ ?_ ?_ ?_ ?_
  · intro _ h
    have hpre := keyQuit_dialog m p h
    rw [hp, hd] at hpre
    exact Bool.noConfusion hpre
  · intro _ h
    have hpre := keyHelpToggle_dialog m p h
    rw [hp, hd] at hpre
    exact Bool.noConfusion hpre
  · intro _ h
    have hpre := keyTabCycle_dialog m p h
    rw [hp, hd] at hpre
    exact Bool.noConfusion hpre
  · intro _ h
    have hpre := keyShiftTabCycle_dialog m p h
    rw [hp, hd] at hpre
    exact Bool.noConfusion hpre
  · intro _ h
    have hpre := keyJump1_dialog m p h
    rw [hp, hd] at hpre
    exact Bool.noConfusion hpre
  · intro _ h
    have hpre := keyJump2_dialog m p h
    rw [hp, hd] at hpre
    exact Bool.noConfusion hpre
  · intro _ h
    have hpre := keyJump3_dialog m p h
    rw [hp, hd] at hpre
    exact Bool.noConfusion hpre
  · intro _ h
    have hpre := keyJump4_dialog m p h
    rw [hp, hd] at hpre
    exact Bool.noConfusion hpre
  · intro t h
    have hpre := keySetTab_dialog m t p h
    rw [hp, hd] at hpre
    exact Bool.noConfusion hpre
  · intro _ h
    have hpre := keyRefresh_dialog m p h
    rw [hp, hd] at hpre
    exact Bool.noConfusion hpre
  · intro _ h
    have hpre := keyEnter_dialog m p h
    rw [hp, hd] at hpre
    exact Bool.noConfusion hpre
  · intro hk h
    exact Or.inl (And.intro hk (keyDelete_dialog_entry m p hd h hp))
  · intro hk h
    exact Or.inr (Or.inl (And.intro hk (keyScaleUp_dialog_entry m p hd h hp)))
  · intro hk h
    exact Or.inr (Or.inr (And.intro hk (keyScaleDown_dialog_entry m p hd h hp)))
  · intro _ h
    have hpre := keyPortForwardStart_dialog m p h
    rw [hp, hd] at hpre
    exact Bool.noConfusion hpre
  · intro _ h
    have hpre := keyPortForwardStopAll_dialog m p h
    rw [hp, hd] at hpre
    exact Bool.noConfusion hpre
  · intro h
    have hpre := navFall_dialog m k p h
    rw [hp, hd] at hpre
    exact Bool.noConfusion hpre

theorem onNamespacesLoaded_no_tick (m : Model) (res : Except String (List String))
    (p : Model × List ACmd) (h : m.onNamespacesLoaded res = some p) : ACmd.tick ∉ p.2 := by
  unfold Model.onNamespacesLoaded at h
  repeat' split at h
  all_goals (try cases h) <;> simp

theorem onDeploymentsLoaded_no_tick (m : Model) (res : Except String (List DeploymentInfo))
    (p : Model × List ACmd) (h : m.onDeploymentsLoaded res = some p) : ACmd.tick ∉ p.2 := by
  unfold Model.onDeploymentsLoaded at h
  repeat' split at h
  all_goals (try cases h) <;> simp

theorem onPodsLoaded_no_tick (m : Model) (res : Except String (List PodInfo))
    (p : Model × List ACmd) (h : m.onPodsLoaded res = some p) : ACmd.tick ∉ p.2 := by
  unfold Model.onPodsLoaded at h
  repeat' split at h
  all_goals (try cases h) <;> simp

theorem onServicesLoaded_no_tick (m : Model) (res : Except String (List ServiceInfo))
    (p : Model × List ACmd) (h : m.onServicesLoaded res = some p) : ACmd.tick ∉ p.2 := by
  unfold Model.onServicesLoaded at h
  repeat' split at h
  all_goals (try cases h) <;> simp

theorem onPodLogsLoaded_no_tick (m : Model) (res : Except String String)
    (p : Model × List ACmd) (h : m.onPodLogsLoaded res = some p) : ACmd.tick ∉ p.2 := by
  unfold Model.onPodLogsLoaded at h
  repeat' split at h
  all_goals (try cases h) <;> simp

theorem onPodMetricsLoaded_no_tick (m : Model) (res : Except String PodMetrics)
    (p : Model × List ACmd) (h : m.onPodMetricsLoaded res = some p) : ACmd.tick ∉ p.2 := by
  unfold Model.onPodMetricsLoaded at h
  repeat' split at h
  all_goals (try cases h) <;> simp

theorem onPodEnvVarsLoaded_no_tick (m : Model) (res : Except String PodEnvVars)
    (p : Model × List ACmd) (h : m.onPodEnvVarsLoaded res = some p) : ACmd.tick ∉ p.2 := by
  unfold Model.onPodEnvVarsLoaded at h
  repeat' split at h
  all_goals (try cases h) <;> simp

theorem onResourceYAMLLoaded_no_tick (m : Model) (res : Except String String)
    (p : Model × List ACmd) (h : m.onResourceYAMLLoaded res = some p) : ACmd.tick ∉ p.2 := by
  unfold Model.onResourceYAMLLoaded at h
  repeat' split at h
  all_goals (try cases h) <;> simp

theorem keyQuit_total_pres (m : Model) :
    ∃ p, m.keyQuit = some p ∧ p.1.k8sManager = m.k8sManager ∧
      p.1.namespacesList.items = m.namespacesList.items := by
  exact ⟨_, rfl, rfl, rfl⟩

theorem keyHelpToggle_total_pres (m : Model) :
    ∃ p, m.keyHelpToggle = some p ∧ p.1.k8sManager = m.k8sManager ∧
      p.1.namespacesList.items = m.namespacesList.items := by
  exact ⟨_, rfl, rfl, rfl⟩

theorem keyTabCycle_total_pres (m : Model) :
    ∃ p, m.keyTabCycle = some p ∧ p.1.k8sManager = m.k8sManager ∧
      p.1.namespacesList.items = m.namespacesList.items := by
  exact ⟨_, rfl, rfl, rfl⟩

theorem keyShiftTabCycle_total_pres (m : Model) :
    ∃ p, m.keyShiftTabCycle = some p ∧ p.1.k8sManager = m.k8sManager ∧
      p.1.namespacesList.items = m.namespacesList.items := by
  exact ⟨_, rfl, rfl, rfl⟩

theorem keyJump1_total_pres (m : Model) :
    ∃ p, m.keyJump1 = some p ∧ p.1.k8sManager = m.k8sManager ∧
      p.1.namespacesList.items = m.namespacesList.items := by
  exact ⟨_, rfl, rfl, rfl⟩

theorem keyJump2_total_pres (m : Model) :
    ∃ p, m.keyJump2 = some p ∧ p.1.k8sManager = m.k8sManager ∧
      p.1.namespacesList.items = m.namespacesList.items := by
  unfold Model.keyJump2
  repeat' split
  all_goals exact ⟨_, rfl, rfl, rfl⟩

theorem keyJump3_total_pres (m : Model) :
    ∃ p, m.keyJump3 = some p ∧ p.1.k8sManager = m.k8sManager ∧
      p.1.namespacesList.items = m.namespacesList.items := by
  unfold Model.keyJump3
  repeat' split
  all_goals exact ⟨_, rfl, rfl, rfl⟩

theorem keyJump4_total_pres (m : Model) :
    ∃ p, m.keyJump4 = some p ∧ p.1.k8sManager = m.k8sManager ∧
      p.1.namespacesList.items = m.namespacesList.items := by
  unfold Model.keyJump4
  repeat' split
  all_goals exact ⟨_, rfl, rfl, rfl⟩

theorem keySetTab_total_pres (m : Model) (t : RightPaneTab) :
    ∃ p, m.keySetTab t = some p ∧ p.1.k8sManager = m.k8sManager ∧
      p.1.namespacesList.items = m.namespacesList.items := by
  exact ⟨_, rfl, rfl, rfl⟩

theorem keyRefresh_total_pres (m : Model) :
    ∃ p, m.keyRefresh = some p ∧ p.1.k8sManager = m.k8sManager ∧
      p.1.namespacesList.items = m.namespacesList.items := by
  exact ⟨_, rfl, rfl, rfl⟩

theorem keyDelete_total_pres (m : Model) :
    ∃ p, m.keyDelete = some p ∧ p.1.k8sManager = m.k8sManager ∧
      p.1.namespacesList.items = m.namespacesList.items := by
  unfold Model.keyDelete
  repeat' split
  all_goals exact ⟨_, rfl, rfl, rfl⟩

theorem keyScaleUp_total_pres (m : Model) :
    ∃ p, m.keyScaleUp = some p ∧ p.1.k8sManager = m.k8sManager ∧
      p.1.namespacesList.items = m.namespacesList.items := by
  unfold Model.keyScaleUp
  repeat' split
  all_goals exact ⟨_, rfl, rfl, rfl⟩

theorem keyScaleDown_total_pres (m : Model) :
    ∃ p, m.keyScaleDown = some p ∧ p.1.k8sManager = m.k8sManager ∧
      p.1.namespacesList.items = m.namespacesList.items := by
  unfold Model.keyScaleDown
  repeat' split
  all_goals exact ⟨_, rfl, rfl, rfl⟩

theorem keyPortForwardStart_total_pres (m : Model) :
    ∃ p, m.keyPortForwardStart = some p ∧ p.1.k8sManager = m.k8sManager ∧
      p.1.namespacesList.items = m.namespacesList.items := by
  unfold Model.keyPortForwardStart
  repeat' split
  all_goals exact ⟨_, rfl, rfl, rfl⟩

theorem keyPortForwardStopAll_total_pres (m : Model) :
    ∃ p, m.keyPortForwardStopAll = some p ∧ p.1.k8sManager = m.k8sManager ∧
      p.1.namespacesList.items = m.namespacesList.items := by
  unfold Model.keyPortForwardStopAll
  repeat' split
  all_goals exact ⟨_, rfl, rfl, rfl⟩

theorem performConfirmedAction_total_pres (m : Model) :
    ∃ p, m.performConfirmedAction = some p ∧ p.1.k8sManager = m.k8sManager ∧
      p.1.namespacesList.items = m.namespacesList.items := by
  unfold Model.performConfirmedAction
  repeat' split
  all_goals exact ⟨_, rfl, rfl, rfl⟩

/-- The `"enter"` handler never panics on reachable states and preserves
the nil-safety invariant: with an absent manager the namespaces list is
empty, so the unguarded `SetNamespace` call site is unreachable. -/
theorem keyEnter_nilsafe (m : Model) (hN : NilSafe m) :
    ∃ p, m.keyEnter = some p ∧ NilSafe p.1 := by
  unfold Model.keyEnter
  rcases hmg : m.k8sManager with _ | mg
  · have hitems : m.namespacesList.items = [] := hN hmg
    have hsel : m.namespacesList.selectedItem = none :=
      ListModel.selectedItem_of_nil _ hitems
    simp only [hsel]
    repeat' split
    all_goals (refine ⟨_, rfl, ?_⟩; intro hnone; simp_all [NilSafe])
  · simp only [hmg]
    repeat' split
    all_goals (refine ⟨_, rfl, ?_⟩; intro hnone; simp_all [NilSafe])

/-- The navigation fall-through never panics on reachable states and
preserves the nil-safety invariant. -/
theorem navFall_nilsafe (m : Model) (k : String) (hN : NilSafe m) :
    ∃ p, m.navFall k = some p ∧ NilSafe p.1 := by
  unfold Model.navFall
  rcases hmg : m.k8sManager with _ | mg
  · have hitems : m.namespacesList.items = [] := hN hmg
    have hsel : (m.namespacesList.update k).selectedItem = none :=
      ListModel.selectedItem_of_nil _ (by simpa using hitems)
    simp only [hsel]
    repeat' (first | split | (simp only []))
    all_goals (refine ⟨_, rfl, ?_⟩; intro hnone; simp_all [NilSafe])
  · simp only [hmg]
    repeat' (first | split | (simp only []))
    all_goals (refine ⟨_, rfl, ?_⟩; intro hnone; simp_all [NilSafe])

theorem onNamespacesLoaded_total_k8s (m : Model) (res : Except String (List String)) :
    ∃ p, m.onNamespacesLoaded res = some p ∧ p.1.k8sManager = m.k8sManager := by
  unfold Model.onNamespacesLoaded
  repeat' split
  all_goals exact ⟨_, rfl, rfl⟩

theorem onNamespacesLoaded_error_pres (m : Model) (e : String) :
    ∃ p, m.onNamespacesLoaded (.error e) = some p ∧ p.1.k8sManager = m.k8sManager ∧
      p.1.namespacesList.items = m.namespacesList.items := by
  exact ⟨_, rfl, rfl, rfl⟩

theorem onDeploymentsLoaded_total_pres (m : Model) (res : Except String (List DeploymentInfo)) :
    ∃ p, m.onDeploymentsLoaded res = some p ∧ p.1.k8sManager = m.k8sManager ∧
      p.1.namespacesList.items = m.namespacesList.items := by
  unfold Model.onDeploymentsLoaded
  repeat' split
  all_goals exact ⟨_, rfl, rfl, rfl⟩

theorem onPodsLoaded_total_pres (m : Model) (res : Except String (List PodInfo)) :
    ∃ p, m.onPodsLoaded res = some p ∧ p.1.k8sManager = m.k8sManager ∧
      p.1.namespacesList.items = m.namespacesList.items := by
  unfold Model.onPodsLoaded
  repeat' split
  all_goals exact ⟨_, rfl, rfl, rfl⟩

theorem onServicesLoaded_total_pres (m : Model) (res : Except String (List ServiceInfo)) :
    ∃ p, m.onServicesLoaded res = some p ∧ p.1.k8sManager = m.k8sManager ∧
      p.1.namespacesList.items = m.namespacesList.items := by
  unfold Model.onServicesLoaded
  repeat' split
  all_goals exact ⟨_, rfl, rfl, rfl⟩

theorem onPodLogsLoaded_total_pres (m : Model) (res : Except String String) :
    ∃ p, m.onPodLogsLoaded res = some p ∧ p.1.k8sManager = m.k8sManager ∧
      p.1.namespacesList.items = m.namespacesList.items := by
  unfold Model.onPodLogsLoaded
  repeat' split
  all_goals exact ⟨_, rfl, rfl, rfl⟩

theorem onPodMetricsLoaded_total_pres (m : Model) (res : Except String PodMetrics) :
    ∃ p, m.onPodMetricsLoaded res = some p ∧ p.1.k8sManager = m.k8sManager ∧
      p.1.namespacesList.items = m.namespacesList.items := by
  unfold Model.onPodMetricsLoaded
  repeat' split
  all_goals exact ⟨_, rfl, rfl, rfl⟩

theorem onPodEnvVarsLoaded_total_pres (m : Model) (res : Except String PodEnvVars) :
    ∃ p, m.onPodEnvVarsLoaded res = some p ∧ p.1.k8sManager = m.k8sManager ∧
      p.1.namespacesList.items = m.namespacesList.items := by
  unfold Model.onPodEnvVarsLoaded
  repeat' split
  all_goals exact ⟨_, rfl, rfl, rfl⟩

theorem onResourceYAMLLoaded_total_pres (m : Model) (res : Except String String) :
    ∃ p, m.onResourceYAMLLoaded res = some p ∧ p.1.k8sManager = m.k8sManager ∧
      p.1.namespacesList.items = m.namespacesList.items := by
  unfold Model.onResourceYAMLLoaded
  repeat' split
  all_goals exact ⟨_, rfl, rfl, rfl⟩

theorem applyResize_pres (m : Model) (w h : Int) :
    (m.applyResize w h).k8sManager = m.k8sManager ∧
      (m.applyResize w h).namespacesList.items = m.namespacesList.items := by
  unfold Model.applyResize
  split
  all_goals exact ⟨rfl, rfl⟩

/-- Against an absent manager, a dispatched command can only produce an
error-carrying namespaces result, never a successful one. -/
theorem runACmd_none_namespacesLoaded (c : ACmd) (res : Except String (List String))
    (h : runACmd none c = some (.namespacesLoaded res)) :
    res = .error "k8s manager not initialized" := by
  cases c <;> simp_all [runACmd]

/-- Only the timer event itself schedules a timer: no other message's
reducer step emits a `tick` command. -/
theorem update_tick_only_from_tick (m : Model) (msg : Msg) (p : Model × List ACmd)
    (h : m.Update msg = some p) (ht : ACmd.tick ∈ p.2) : msg = Msg.tick := by
  cases msg with
  | key k =>
      exfalso
      simp only [Model.Update] at h
      repeat' split at h
      all_goals
        first
          | exact (performConfirmedAction_no_tick _ p h) ht
          | exact (keySwitch_no_tick _ _ p h) ht
          | (cases h; simp at ht)
  | tick => rfl
  | namespacesLoaded res => exact absurd ht (onNamespacesLoaded_no_tick m res p h)
  | deploymentsLoaded res => exact absurd ht (onDeploymentsLoaded_no_tick m res p h)
  | podsLoaded res => exact absurd ht (onPodsLoaded_no_tick m res p h)
  | servicesLoaded res => exact absurd ht (onServicesLoaded_no_tick m res p h)
  | podLogsLoaded res => exact absurd ht (onPodLogsLoaded_no_tick m res p h)
  | podMetricsLoaded res => exact absurd ht (onPodMetricsLoaded_no_tick m res p h)
  | podEnvVarsLoaded res => exact absurd ht (onPodEnvVarsLoaded_no_tick m res p h)
  | resourceYAMLLoaded res => exact absurd ht (onResourceYAMLLoaded_no_tick m res p h)
  | windowSize w h2 =>
      exfalso
      simp only [Model.Update] at h
      cases h
      simp at ht

/-- Normal-mode key dispatch never panics on nil-safe states and preserves
nil-safety. -/
theorem keySwitch_nilsafe (m : Model) (k : String) (hN : NilSafe m) :
    ∃ p, m.keySwitch k = some p ∧ NilSafe p.1 := by
  refine keySwitch_cases m k (fun r => ∃ p, r = some p ∧ NilSafe p.1)
    ?_ ?_ ?_ ?_ ?_ ?_ ?_ ?_ ?_ ?_ ?_ ?_ ?_ ?_ ?_ ?_ ?_
  · intro _
    obtain ⟨p, hp, hk, hi⟩ := keyQuit_total_pres m
    exact ⟨p, hp, fun hnone => by simp_all [NilSafe]⟩
  · intro _
    obtain ⟨p, hp, hk, hi⟩ := keyHelpToggle_total_pres m
    exact ⟨p, hp, fun hnone => by simp_all [NilSafe]⟩
  · intro _
    obtain ⟨p, hp, hk, hi⟩ := keyTabCycle_total_pres m
    exact ⟨p, hp, fun hnone => by simp_all [NilSafe]⟩
  · intro _
    obtain ⟨p, hp, hk, hi⟩ := keyShiftTabCycle_total_pres m
    exact ⟨p, hp, fun hnone => by simp_all [NilSafe]⟩
  · intro _
    obtain ⟨p, hp, hk, hi⟩ := keyJump1_total_pres m
    exact ⟨p, hp, fun hnone => by simp_all [NilSafe]⟩
  · intro _
    obtain ⟨p, hp, hk, hi⟩ := keyJump2_total_pres m
    exact ⟨p, hp, fun hnone => by simp_all [NilSafe]⟩
  · intro _
    obtain ⟨p, hp, hk, hi⟩ := keyJump3_total_pres m
    exact ⟨p, hp, fun hnone => by simp_all [NilSafe]⟩
  · intro _
    obtain ⟨p, hp, hk, hi⟩ := keyJump4_total_pres m
    exact ⟨p, hp, fun hnone => by simp_all [NilSafe]⟩
  · intro t
    obtain ⟨p, hp, hk, hi⟩ := keySetTab_total_pres m t
    exact ⟨p, hp, fun hnone => by simp_all [NilSafe]⟩
  · intro _
    obtain ⟨p, hp, hk, hi⟩ := keyRefresh_total_pres m
    exact ⟨p, hp, fun hnone => by simp_all [NilSafe]⟩
  · intro _
    exact keyEnter_nilsafe m hN
  · intro _
    obtain ⟨p, hp, hk, hi⟩ := keyDelete_total_pres m
    exact ⟨p, hp, fun hnone => by simp_all [NilSafe]⟩
  · intro _
    obtain ⟨p, hp, hk, hi⟩ := keyScaleUp_total_pres m
    exact ⟨p, hp, fun hnone => by simp_all [NilSafe]⟩
  · intro _
    obtain ⟨p, hp, hk, hi⟩ := keyScaleDown_total_pres m
    exact ⟨p, hp, fun hnone => by simp_all [NilSafe]⟩
  · intro _
    obtain ⟨p, hp, hk, hi⟩ := keyPortForwardStart_total_pres m
    exact ⟨p, hp, fun hnone => by simp_all [NilSafe]⟩
  · intro _
    obtain ⟨p, hp, hk, hi⟩ := keyPortForwardStopAll_total_pres m
    exact ⟨p, hp, fun hnone => by simp_all [NilSafe]⟩
  · exact navFall_nilsafe m k hN

/-- The reducer never panics on an admissible message from a nil-safe
state, and the resulting state is again nil-safe. -/
theorem update_nilsafe (m : Model) (msg : Msg) (hN : NilSafe m)
    (hA : admissibleMsg m.k8sManager msg) :
    ∃ p, m.Update msg = some p ∧ NilSafe p.1 := by
  cases msg with
  | key k =>
      simp only [Model.Update]
      repeat' split
      · obtain ⟨p, hp, hk, hi⟩ := performConfirmedAction_total_pres
          { m with showConfirmDialog := false }
        exact ⟨p, hp, fun hnone => by simp_all [NilSafe]⟩
      · exact ⟨_, rfl, fun hnone => by simp_all [NilSafe]⟩
      · exact ⟨_, rfl, hN⟩
      · exact ⟨_, rfl, fun hnone => by simp_all [NilSafe]⟩
      · exact ⟨_, rfl, hN⟩
      · exact keySwitch_nilsafe m k hN
  | namespacesLoaded res =>
      rcases hmg : m.k8sManager with _ | mg
      · rw [hmg] at hA
        obtain ⟨c, hc⟩ := hA
        obtain rfl := runACmd_none_namespacesLoaded c res hc
        obtain ⟨p, hp, hk, hi⟩ := onNamespacesLoaded_error_pres m "k8s manager not initialized"
        exact ⟨p, hp, fun hnone => by simp_all [NilSafe]⟩
      · obtain ⟨p, hp, hk⟩ := onNamespacesLoaded_total_k8s m res
        refine ⟨p, hp, ?_⟩
        intro hnone
        rw [hk, hmg] at hnone
        exact Option.noConfusion hnone
  | deploymentsLoaded res =>
      obtain ⟨p, hp, hk, hi⟩ := onDeploymentsLoaded_total_pres m res
      exact ⟨p, hp, fun hnone => by simp_all [NilSafe]⟩
  | podsLoaded res =>
      obtain ⟨p, hp, hk, hi⟩ := onPodsLoaded_total_pres m res
      exact ⟨p, hp, fun hnone => by simp_all [NilSafe]⟩
  | servicesLoaded res =>
      obtain ⟨p, hp, hk, hi⟩ := onServicesLoaded_total_pres m res
      exact ⟨p, hp, fun hnone => by simp_all [NilSafe]⟩
  | podLogsLoaded res =>
      obtain ⟨p, hp, hk, hi⟩ := onPodLogsLoaded_total_pres m res
      exact ⟨p, hp, fun hnone => by simp_all [NilSafe]⟩
  | podMetricsLoaded res =>
      obtain ⟨p, hp, hk, hi⟩ := onPodMetricsLoaded_total_pres m res
      exact ⟨p, hp, fun hnone => by simp_all [NilSafe]⟩
  | podEnvVarsLoaded res =>
      obtain ⟨p, hp, hk, hi⟩ := onPodEnvVarsLoaded_total_pres m res
      exact ⟨p, hp, fun hnone => by simp_all [NilSafe]⟩
  | resourceYAMLLoaded res =>
      obtain ⟨p, hp, hk, hi⟩ := onResourceYAMLLoaded_total_pres m res
      exact ⟨p, hp, fun hnone => by simp_all [NilSafe]⟩
  | tick =>
      exact ⟨_, rfl, hN⟩
  | windowSize w h =>
      obtain ⟨hk, hi⟩ := applyResize_pres m w h
      exact ⟨_, rfl, fun hnone => by simp_all [NilSafe]⟩

theorem onNamespacesLoaded_dialog (m : Model) (res : Except String (List String))
    (p : Model × List ACmd) (h : m.onNamespacesLoaded res = some p) :
    p.1.showConfirmDialog = m.showConfirmDialog := by
  unfold Model.onNamespacesLoaded at h
  repeat' split at h
  all_goals (cases h) <;> rfl

theorem onDeploymentsLoaded_dialog (m : Model) (res : Except String (List DeploymentInfo))
    (p : Model × List ACmd) (h : m.onDeploymentsLoaded res = some p) :
    p.1.showConfirmDialog = m.showConfirmDialog := by
  unfold Model.onDeploymentsLoaded at h
  repeat' split at h
  all_goals (cases h) <;> rfl

theorem onPodsLoaded_dialog (m : Model) (res : Except String (List PodInfo))
    (p : Model × List ACmd) (h : m.onPodsLoaded res = some p) :
    p.1.showConfirmDialog = m.showConfirmDialog := by
  unfold Model.onPodsLoaded at h
  repeat' split at h
  all_goals (cases h) <;> rfl

theorem onServicesLoaded_dialog (m : Model) (res : Except String (List ServiceInfo))
    (p : Model × List ACmd) (h : m.onServicesLoaded res = some p) :
    p.1.showConfirmDialog = m.showConfirmDialog := by
  unfold Model.onServicesLoaded at h
  repeat' split at h
  all_goals (cases h) <;> rfl

theorem onPodLogsLoaded_dialog (m : Model) (res : Except String String)
    (p : Model × List ACmd) (h : m.onPodLogsLoaded res = some p) :
    p.1.showConfirmDialog = m.showConfirmDialog := by
  unfold Model.onPodLogsLoaded at h
  repeat' split at h
  all_goals (cases h) <;> rfl

theorem onPodMetricsLoaded_dialog (m : Model) (res : Except String PodMetrics)
    (p : Model × List ACmd) (h : m.onPodMetricsLoaded res = some p) :
    p.1.showConfirmDialog = m.showConfirmDialog := by
  unfold Model.onPodMetricsLoaded at h
  repeat' split at h
  all_goals (cases h) <;> rfl

theorem onPodEnvVarsLoaded_dialog (m : Model) (res : Except String PodEnvVars)
    (p : Model × List ACmd) (h : m.onPodEnvVarsLoaded res = some p) :
    p.1.showConfirmDialog = m.showConfirmDialog := by
  unfold Model.onPodEnvVarsLoaded at h
  repeat' split at h
  all_goals (cases h) <;> rfl

theorem onResourceYAMLLoaded_dialog (m : Model) (res : Except String String)
    (p : Model × List ACmd) (h : m.onResourceYAMLLoaded res = some p) :
    p.1.showConfirmDialog = m.showConfirmDialog := by
  unfold Model.onResourceYAMLLoaded at h
  repeat' split at h
  all_goals (cases h) <;> rfl

theorem applyResize_dialog (m : Model) (w h : Int) :
    (m.applyResize w h).showConfirmDialog = m.showConfirmDialog := by
  unfold Model.applyResize
  split
  all_goals rfl

/-- No-dialog states only enter `Confirm` through a delete or scale key,
and only with the corresponding action payload. -/
theorem update_dialog_entry (m : Model) (msg : Msg) (p : Model × List ACmd)
    (hd : m.showConfirmDialog = false) (hup : m.Update msg = some p)
    (hp : p.1.showConfirmDialog = true) :
    ∃ k, msg = Msg.key k ∧
      ((k = "d" ∧ (p.1.confirmAction = "delete-pod" ∨
          p.1.confirmAction = "delete-deployment")) ∨
       ((k = "+" ∨ k = "=") ∧ m.activeCategory = CategoryType.deploymentsCategory ∧
         p.1.confirmAction = "scale-up" ∧
         ∃ item, m.deploymentsList.selectedItem = some item ∧
           p.1.confirmResource = item.Name ∧ p.1.confirmReplicas = item.Replicas + 1) ∨
       ((k = "-" ∨ k = "_") ∧ m.activeCategory = CategoryType.deploymentsCategory ∧
         p.1.confirmAction = "scale-down" ∧
         ∃ item, m.deploymentsList.selectedItem = some item ∧
           p.1.confirmResource = item.Name ∧ 0 < item.Replicas ∧
           p.1.confirmReplicas = item.Replicas - 1)) := by
  cases msg with
  | key k =>
      refine ⟨k, rfl, ?_⟩
      simp only [Model.Update] at hup
      rw [hd] at hup
      simp only [Bool.false_eq_true, if_false] at hup
      by_cases hh : m.showHelp = true
      · rw [hh] at hup
        simp only [if_true] at hup
        exfalso
        split at hup
        all_goals (cases hup; simp_all)
      · rw [Bool.not_eq_true] at hh
        rw [hh] at hup
        simp only [Bool.false_eq_true, if_false] at hup
        exact keySwitch_dialog_entry m k p hd hup hp
  | namespacesLoaded res =>
      exfalso
      have hpre := onNamespacesLoaded_dialog m res p hup
      rw [hp, hd] at hpre
      exact Bool.noConfusion hpre
  | deploymentsLoaded res =>
      exfalso
      have hpre := onDeploymentsLoaded_dialog m res p hup
      rw [hp, hd] at hpre
      exact Bool.noConfusion hpre
  | podsLoaded res =>
      exfalso
      have hpre := onPodsLoaded_dialog m res p hup
      rw [hp, hd] at hpre
      exact Bool.noConfusion hpre
  | servicesLoaded res =>
      exfalso
      have hpre := onServicesLoaded_dialog m res p hup
      rw [hp, hd] at hpre
      exact Bool.noConfusion hpre
  | podLogsLoaded res =>
      exfalso
      have hpre := onPodLogsLoaded_dialog m res p hup
      rw [hp, hd] at hpre
      exact Bool.noConfusion hpre
  | podMetricsLoaded res =>
      exfalso
      have hpre := onPodMetricsLoaded_dialog m res p hup
      rw [hp, hd] at hpre
      exact Bool.noConfusion hpre
  | podEnvVarsLoaded res =>
      exfalso
      have hpre := onPodEnvVarsLoaded_dialog m res p hup
      rw [hp, hd] at hpre
      exact Bool.noConfusion hpre
  | resourceYAMLLoaded res =>
      exfalso
      have hpre := onResourceYAMLLoaded_dialog m res p hup
      rw [hp, hd] at hpre
      exact Bool.noConfusion hpre
  | tick =>
      exfalso
      cases hup
      rw [hp] at hd
      exact Bool.noConfusion hd
  | windowSize w h =>
      exfalso
      cases hup
      have hpre := applyResize_dialog m w h
      rw [hp, hd] at hpre
      exact Bool.noConfusion hpre

/-- C1: Modal overlay protocol.  While the confirmation dialog is showing,
`y`/`Y` closes it and executes the pending action, `n`/`N`/`esc`/`q` closes
it and cancels, and every other key leaves the whole state unchanged with
no follow-up commands; while the help screen is showing, only `?`/`q`/`esc`
closes it and every other key is a no-op; and from the no-dialog state only
the delete key or a scale key can enter the `Confirm` state. -/
theorem c1_modal_overlay_protocol :
    (∀ (m : Model) (k : String), m.showConfirmDialog = true → (k = "y" ∨ k = "Y") →
       m.Update (.key k) =
         Model.performConfirmedAction { m with showConfirmDialog := false }) ∧
    (∀ (m : Model) (k : String), m.showConfirmDialog = true →
       (k = "n" ∨ k = "N" ∨ k = "esc" ∨ k = "q") →
       m.Update (.key k) =
         some ({ m with showConfirmDialog := false,
                        statusMessage := "Action cancelled" }, [])) ∧
    (∀ (m : Model) (k : String), m.showConfirmDialog = true →
       ¬(k = "y" ∨ k = "Y") → ¬(k = "n" ∨ k = "N" ∨ k = "esc" ∨ k = "q") →
       m.Update (.key k) = some (m, [])) ∧
    (∀ (m : Model) (k : String), m.showConfirmDialog = false → m.showHelp = true →
       ((k = "?" ∨ k = "q" ∨ k = "esc") →
          m.Update (.key k) = some ({ m with showHelp := false }, [])) ∧
       (¬(k = "?" ∨ k = "q" ∨ k = "esc") → m.Update (.key k) = some (m, []))) ∧
    (∀ (m : Model) (msg : Msg) (p : Model × List ACmd),
       m.showConfirmDialog = false → m.Update msg = some p →
       p.1.showConfirmDialog = true →
       ∃ k, msg = Msg.key k ∧
         (k = "d" ∨ k = "+" ∨ k = "=" ∨ k = "-" ∨ k = "_")) := by
  refine ⟨?_, ?_, ?_, ?_, ?_⟩
  · intro m k hd hk
    rcases hk with rfl | rfl <;> simp [Model.Update, hd]
  · intro m k hd hk
    rcases hk with rfl | rfl | rfl | rfl <;> simp [Model.Update, hd]
  · intro m k hd h1 h2
    simp [Model.Update, hd, h1, h2]
  · intro m k hd hh
    constructor
    · intro hk
      rcases hk with rfl | rfl | rfl <;> simp [Model.Update, hd, hh]
    · intro hk
      simp [Model.Update, hd, hh, hk]
  · intro m msg p hd hup hp
    obtain ⟨k, rfl, hdis⟩ := update_dialog_entry m msg p hd hup hp
    refine ⟨k, rfl, ?_⟩
    rcases hdis with ⟨hk, _⟩ | ⟨hk, _⟩ | ⟨hk, _⟩
    · exact Or.inl hk
    · rcases hk with hk | hk
      · exact Or.inr (Or.inl hk)
      · exact Or.inr (Or.inr (Or.inl hk))
    · rcases hk with hk | hk
      · exact Or.inr (Or.inr (Or.inr (Or.inl hk)))
      · exact Or.inr (Or.inr (Or.inr (Or.inr hk)))

/-- C1 witness: in a concrete dialog-showing state, an unrelated key is
swallowed without any state change. -/
theorem c1_witness :
    c1Model.Update (.key "z") = some (c1Model, []) :=
  c1_modal_overlay_protocol.2.2.1 c1Model "z" rfl (by decide) (by decide)

/-- C4 counterexample: on a timer tick the reducer re-issues only the
deployments, pods and services loads — the namespaces load is absent,
contrary to the claim that all four list loads are re-issued. -/
theorem c4_counterexample :
    errModel.Update Msg.tick =
      some (errModel,
        [ACmd.loadDeployments, ACmd.loadPods, ACmd.loadServices, ACmd.tick]) ∧
    ACmd.loadNamespaces ∉
      [ACmd.loadDeployments, ACmd.loadPods, ACmd.loadServices, ACmd.tick] :=
  ⟨rfl, by decide⟩

/-- C4 (amended): on every timer tick the reducer re-issues the three lower
list loads (deployments, pods, services — not namespaces) and reschedules
exactly one timer; no other message ever schedules a timer. -/
theorem c4_tick_reschedule :
    ∀ m : Model,
      m.Update Msg.tick =
        some (m, [ACmd.loadDeployments, ACmd.loadPods, ACmd.loadServices, ACmd.tick]) ∧
      [ACmd.loadDeployments, ACmd.loadPods, ACmd.loadServices,
        ACmd.tick].count ACmd.tick = 1 ∧
      ACmd.loadNamespaces ∉
        [ACmd.loadDeployments, ACmd.loadPods, ACmd.loadServices, ACmd.tick] ∧
      (∀ (msg : Msg) (p : Model × List ACmd),
        m.Update msg = some p → ACmd.tick ∈ p.2 → msg = Msg.tick) := by
  intro m
  exact ⟨rfl, by decide, by decide,
    fun msg p h ht => update_tick_only_from_tick m msg p h ht⟩

/-- C4 witness: the tick equation instantiated at a concrete state, with the
nested implication discharged at the tick message itself. -/
theorem c4_witness :
    errModel.Update Msg.tick =
      some (errModel,
        [ACmd.loadDeployments, ACmd.loadPods, ACmd.loadServices, ACmd.tick]) ∧
    Msg.tick = Msg.tick :=
  ⟨(c4_tick_reschedule errModel).1,
    (c4_tick_reschedule errModel).2.2.2 Msg.tick
      (errModel, [ACmd.loadDeployments, ACmd.loadPods, ACmd.loadServices, ACmd.tick])
      (c4_tick_reschedule errModel).1 (by decide)⟩

/-- C5: scale-up always targets current + 1; scale-down targets current - 1
and is refused outright when the current replica count is 0, so the captured
target replica count is never negative. -/
theorem c5_scale_confirm :
    ∀ (m : Model) (item : DeploymentInfo),
      m.showConfirmDialog = false → m.showHelp = false →
      m.activeCategory = CategoryType.deploymentsCategory →
      m.deploymentsList.selectedItem = some item →
      ((∀ k, (k = "+" ∨ k = "=") →
          m.Update (.key k) =
            some ({ m with showConfirmDialog := true, confirmAction := "scale-up",
                           confirmResource := item.Name,
                           confirmReplicas := item.Replicas + 1 }, [])) ∧
       (0 < item.Replicas → ∀ k, (k = "-" ∨ k = "_") →
          m.Update (.key k) =
            some ({ m with showConfirmDialog := true, confirmAction := "scale-down",
                           confirmResource := item.Name,
                           confirmReplicas := item.Replicas - 1 }, [])) ∧
       (item.Replicas = 0 → ∀ k, (k = "-" ∨ k = "_") →
          m.Update (.key k) = some (m, [])) ∧
       (0 ≤ item.Replicas →
          ∀ (msg : Msg) (p : Model × List ACmd), m.Update msg = some p →
            p.1.showConfirmDialog = true →
            (p.1.confirmAction = "scale-up" ∨ p.1.confirmAction = "scale-down") →
            0 ≤ p.1.confirmReplicas)) := by
  intro m item hd hh hcat hsel
  refine ⟨?_, ?_, ?_, ?_⟩
  · intro k hk
    rcases hk with rfl | rfl <;>
      simp [Model.Update, hd, hh, Model.keySwitch, Model.keyScaleUp, hcat, hsel]
  · intro hr k hk
    rcases hk with rfl | rfl <;>
      simp [Model.Update, hd, hh, Model.keySwitch, Model.keyScaleDown, hcat, hsel, hr]
  · intro hz k hk
    rcases hk with rfl | rfl <;>
      simp [Model.Update, hd, hh, Model.keySwitch, Model.keyScaleDown, hcat, hsel, hz]
  · intro hge msg p hup hpd hact
    obtain ⟨k, rfl, hdis⟩ := update_dialog_entry m msg p hd hup hpd
    rcases hdis with ⟨_, hdel⟩ | ⟨_, _, _, item0, hsel0, _, hrep⟩ |
      ⟨_, _, _, item0, hsel0, _, hpos, hrep⟩
    · exfalso
      rcases hact with ha | ha <;> rcases hdel with hb | hb <;>
        (rw [ha] at hb; exact absurd hb (by decide))
    · have : item0 = item := by
        rw [hsel] at hsel0
        exact (Option.some.inj hsel0).symm
      subst this
      omega
    · have : item0 = item := by
        rw [hsel] at hsel0
        exact (Option.some.inj hsel0).symm
      subst this
      omega

/-- C5 witness: a concrete deployments-focused state with a 3-replica
deployment selected; pressing `+` opens the dialog targeting 4 replicas. -/
theorem c5_witness :
    c5Model.Update (.key "+") =
      some ({ c5Model with showConfirmDialog := true, confirmAction := "scale-up",
                           confirmResource := "web", confirmReplicas := 4 }, []) := by
  have h := (c5_scale_confirm c5Model testDeployment rfl rfl rfl rfl).1 "+" (Or.inl rfl)
  simpa [testDeployment] using h

/-- C6: resize geometry.  The resize reducer stores the dimensions and gives
the left region one third of the width (each list pane width is that third
minus fixed border/padding), gives all four list panes the same height
`max 3 ((height - 6) / 4 - 2)` (Go truncating division), so every list pane
height is at least 3; and the resulting geometry is a pure function of
(width, height): identical dimensions yield identical geometry from any
prior state. -/
theorem c6_layout_geometry :
    ∀ (m : Model) (w h : Int),
      m.Update (.windowSize w h) = some (m.applyResize w h, []) ∧
      ((m.applyResize w h).namespacesList.height = max 3 ((h - 6).tdiv 4 - 2) ∧
       (m.applyResize w h).deploymentsList.height = max 3 ((h - 6).tdiv 4 - 2) ∧
       (m.applyResize w h).podsList.height = max 3 ((h - 6).tdiv 4 - 2) ∧
       (m.applyResize w h).servicesList.height = max 3 ((h - 6).tdiv 4 - 2)) ∧
      3 ≤ (m.applyResize w h).namespacesList.height ∧
      ((m.applyResize w h).namespacesList.width = w.tdiv 3 - 4 ∧
       (m.applyResize w h).deploymentsList.width = w.tdiv 3 - 4 ∧
       (m.applyResize w h).podsList.width = w.tdiv 3 - 4 ∧
       (m.applyResize w h).servicesList.width = w.tdiv 3 - 4) ∧
      (∀ m2 : Model, (m.applyResize w h).geometry = (m2.applyResize w h).geometry) := by
  intro m w h
  have hh : ∀ mx : Model, (mx.applyResize w h).namespacesList.height =
      max 3 ((h - 6).tdiv 4 - 2) := by
    intro mx
    rw [← ite_lt_three_eq_max]
    unfold Model.applyResize
    split <;> rfl
  have hh2 : ∀ mx : Model, (mx.applyResize w h).deploymentsList.height =
      max 3 ((h - 6).tdiv 4 - 2) := by
    intro mx
    rw [← ite_lt_three_eq_max]
    unfold Model.applyResize
    split <;> rfl
  have hh3 : ∀ mx : Model, (mx.applyResize w h).podsList.height =
      max 3 ((h - 6).tdiv 4 - 2) := by
    intro mx
    rw [← ite_lt_three_eq_max]
    unfold Model.applyResize
    split <;> rfl
  have hh4 : ∀ mx : Model, (mx.applyResize w h).servicesList.height =
      max 3 ((h - 6).tdiv 4 - 2) := by
    intro mx
    rw [← ite_lt_three_eq_max]
    unfold Model.applyResize
    split <;> rfl
  have hw : ∀ mx : Model, (mx.applyResize w h).namespacesList.width = w.tdiv 3 - 4 := by
    intro mx
    unfold Model.applyResize
    split <;> rfl
  have hw2 : ∀ mx : Model, (mx.applyResize w h).deploymentsList.width = w.tdiv 3 - 4 := by
    intro mx
    unfold Model.applyResize
    split <;> rfl
  have hw3 : ∀ mx : Model, (mx.applyResize w h).podsList.width = w.tdiv 3 - 4 := by
    intro mx
    unfold Model.applyResize
    split <;> rfl
  have hw4 : ∀ mx : Model, (mx.applyResize w h).servicesList.width = w.tdiv 3 - 4 := by
    intro mx
    unfold Model.applyResize
    split <;> rfl
  refine ⟨rfl, ⟨hh m, hh2 m, hh3 m, hh4 m⟩, ?_, ⟨hw m, hw2 m, hw3 m, hw4 m⟩, ?_⟩
  · rw [hh m]
    exact le_max_left 3 _
  · intro m2
    unfold Model.geometry Model.applyResize
    split <;> split <;> rfl

/-- C7 counterexample: with inner width 3 and a 5-character row, the source
renders the row unchanged (the `maxWidth > 3` guard fails), so the result is
not of the pane's inner width as the claim states. -/
theorem c7_counterexample :
    ((['a', 'b', 'c', 'd', 'e'] : List Char).length : Int) > 3 ∧
    renderTruncate ['a', 'b', 'c', 'd', 'e'] 3 = ['a', 'b', 'c', 'd', 'e'] ∧
    ((renderTruncate ['a', 'b', 'c', 'd', 'e'] 3).length : Int) ≠ 3 := by
  refine ⟨by decide, ?_, by decide⟩
  rfl

/-- C7 (amended): a row no wider than the inner width is rendered unchanged;
a wider row is trimmed to exactly the inner width and ends in an ellipsis
provided that width exceeds 3; when the inner width is at most 3 the row is
rendered unchanged even if too wide. -/
theorem c7_truncation :
    (∀ (s : List Char) (maxW : Int), (s.length : Int) ≤ maxW →
       renderTruncate s maxW = s) ∧
    (∀ (s : List Char) (maxW : Int), (s.length : Int) > maxW → 3 < maxW →
       ((renderTruncate s maxW).length : Int) = maxW ∧
       ∃ t, renderTruncate s maxW = t ++ ellipsisChars) ∧
    (∀ (s : List Char) (maxW : Int), maxW ≤ 3 → renderTruncate s maxW = s) := by
  refine ⟨?_, ?_, ?_⟩
  · intro s maxW hle
    unfold renderTruncate
    rw [if_neg]
    rintro ⟨h1, _⟩
    omega
  · intro s maxW hgt h3
    unfold renderTruncate
    rw [if_pos ⟨hgt, h3⟩]
    constructor
    · have hlen := truncFitLoop_length s maxW h3 (by omega)
      rw [List.length_append]
      have : (ellipsisChars.length : Int) = 3 := by decide
      push_cast at hlen ⊢
      omega
    · exact ⟨truncFitLoop s maxW, rfl⟩
  · intro s maxW h3
    unfold renderTruncate
    rw [if_neg]
    rintro ⟨_, h2⟩
    omega

/-- C7 witness: a six-character row in a pane of inner width 5 is trimmed to
exactly five characters ending in the ellipsis. -/
theorem c7_witness :
    ((renderTruncate ['a', 'b', 'c', 'd', 'e', 'f'] 5).length : Int) = 5 ∧
    ∃ t, renderTruncate ['a', 'b', 'c', 'd', 'e', 'f'] 5 = t ++ ellipsisChars :=
  c7_truncation.2.1 ['a', 'b', 'c', 'd', 'e', 'f'] 5 (by decide) (by decide)

/-- C9: log viewer round trip.  Setting content then reading it back returns
the identical string; appending to nonempty content yields the prior
content, a newline, then the new content; appending to empty content yields
just the new content. -/
theorem c9_logviewer_roundtrip :
    (∀ (lv : LogViewer) (s : String), (lv.SetContent s).GetContent = s) ∧
    (∀ (lv : LogViewer) (n : String), lv.content ≠ "" →
       (lv.AppendContent n).GetContent = lv.content ++ "\n" ++ n) ∧
    (∀ (lv : LogViewer) (n : String), lv.content = "" →
       (lv.AppendContent n).GetContent = n) := by
  refine ⟨fun lv s => rfl, ?_, ?_⟩
  · intro lv n hne
    simp [LogViewer.AppendContent, LogViewer.SetContent, LogViewer.GetContent, hne]
  · intro lv n hz
    simp [LogViewer.AppendContent, LogViewer.SetContent, LogViewer.GetContent, hz]

/-- C9 witness: appending to a viewer holding "line1" yields
"line1", newline, "line2". -/
theorem c9_witness :
    testViewer.content ≠ "" ∧
    (testViewer.AppendContent "line2").GetContent =
      testViewer.content ++ "\n" ++ "line2" :=
  ⟨by decide, c9_logviewer_roundtrip.2.1 testViewer "line2" (by decide)⟩

/-- C8: confirmed mutating actions whose backend call fails change only the
status line (the dialog flag itself having been cleared on `y`), issue no
follow-up load, and leave every other field of the state unchanged. -/
theorem c8_confirmed_action_error_atomic :
    (∀ (m : Model) (mg : Manager) (e : String),
       m.showConfirmDialog = true → m.k8sManager = some mg →
       m.confirmAction = "delete-pod" →
       mg.deletePodRes m.confirmResource = some e →
       m.Update (.key "y") =
         some ({ m with showConfirmDialog := false,
                        statusMessage := "Error deleting pod: " ++ e }, [])) ∧
    (∀ (m : Model) (mg : Manager) (e : String),
       m.showConfirmDialog = true → m.k8sManager = some mg →
       m.confirmAction = "delete-deployment" →
       mg.deleteDeploymentRes m.confirmResource = some e →
       m.Update (.key "y") =
         some ({ m with showConfirmDialog := false,
                        statusMessage := "Error deleting deployment: " ++ e }, [])) ∧
    (∀ (m : Model) (mg : Manager) (e : String),
       m.showConfirmDialog = true → m.k8sManager = some mg →
       (m.confirmAction = "scale-up" ∨ m.confirmAction = "scale-down") →
       mg.scaleDeploymentRes m.confirmResource m.confirmReplicas = some e →
       m.Update (.key "y") =
         some ({ m with showConfirmDialog := false,
                        statusMessage := "Error scaling: " ++ e }, [])) := by
  refine ⟨?_, ?_, ?_⟩
  · intro m mg e hd hmg hact herr
    simp [Model.Update, hd, Model.performConfirmedAction, hact, hmg, herr]
  · intro m mg e hd hmg hact herr
    simp [Model.Update, hd, Model.performConfirmedAction, hact, hmg, herr]
  · intro m mg e hd hmg hact herr
    rcases hact with hact | hact <;>
      simp [Model.Update, hd, Model.performConfirmedAction, hact, hmg, herr]

/-- C8 witness: with the failing backend connected and a delete-pod
confirmation pending, pressing `y` surfaces the error in the status line
and issues no follow-up commands. -/
theorem c8_witness :
    c8Model.Update (.key "y") =
      some ({ c8Model with showConfirmDialog := false,
                           statusMessage := "Error deleting pod: " ++ "boom" }, []) :=
  c8_confirmed_action_error_atomic.1 c8Model testManagerErr "boom" rfl rfl rfl rfl

/-- C2: with an absent backend manager every dispatched load immediately
yields a local error result; the initial state is nil-safe; and from any
nil-safe state the reducer handles every admissible message without a nil
dereference (no panic) and stays nil-safe — the unguarded `SetNamespace`
call sites stay unreachable because the namespaces pane is never populated
when the manager is absent. -/
theorem c2_nil_manager_safety :
    (runACmd none ACmd.loadNamespaces =
       some (.namespacesLoaded (.error "k8s manager not initialized")) ∧
     runACmd none ACmd.loadDeployments =
       some (.deploymentsLoaded (.error "k8s manager not initialized")) ∧
     runACmd none ACmd.loadPods =
       some (.podsLoaded (.error "k8s manager not initialized")) ∧
     runACmd none ACmd.loadServices =
       some (.servicesLoaded (.error "k8s manager not initialized")) ∧
     (∀ pod, runACmd none (ACmd.loadPodLogs pod) =
       some (.podLogsLoaded (.error "k8s manager not initialized"))) ∧
     (∀ pod, runACmd none (ACmd.loadPodMetrics pod) =
       some (.podMetricsLoaded (.error "k8s manager not initialized"))) ∧
     (∀ pod, runACmd none (ACmd.loadPodEnvVars pod) =
       some (.podEnvVarsLoaded (.error "k8s manager not initialized"))) ∧
     (∀ t n, runACmd none (ACmd.loadResourceYAML t n) =
       some (.resourceYAMLLoaded (.error "k8s manager not initialized")))) ∧
    (∀ e, NilSafe (initModel (.error e))) ∧
    (∀ (m : Model) (msg : Msg), NilSafe m → admissibleMsg m.k8sManager msg →
       ∃ p, m.Update msg = some p ∧ NilSafe p.1) := by
  refine ⟨⟨rfl, rfl, rfl, rfl, fun pod => rfl, fun pod => rfl, fun pod => rfl,
    fun t n => rfl⟩, ?_, update_nilsafe⟩
  intro e hnone
  rfl

/-- C2 witness: the quit key on the concrete failed-init state is handled
without panic and preserves nil-safety. -/
theorem c2_witness :
    ∃ p, errModel.Update (.key "q") = some p ∧ NilSafe p.1 :=
  c2_nil_manager_safety.2.2 errModel (.key "q") (fun _ => rfl) trivial

/-- C3 counterexample: with namespaces focused and a deployment already
selected in the deployments pane, cycling forward with `tab` enters the
deployments category but issues no load and does not re-derive the
selection context, contrary to the claim that every way of switching in
issues the tab loads. -/
theorem c3_counterexample :
    c3Model.deploymentsList.selectedItem = some testDeployment ∧
    c3Model.activeCategory = CategoryType.namespacesCategory ∧
    c3Model.Update (.key "tab") =
      some ({ c3Model with activeCategory := CategoryType.deploymentsCategory }, []) ∧
    c3Model.selectedResource = "" ∧
    testDeployment.Name = "web" := by
  exact ⟨rfl, rfl, rfl, rfl, rfl⟩

/-- C3 (amended): only the direct-jump keys 2/3/4 re-derive the selection
context from the target pane's selection and issue the tab loads of the new
category (Pods: logs+metrics+env+YAML; Deployments/Services: YAML only);
the cycling keys tab/shift+tab only change the active category and issue no
loads. -/
theorem c3_category_switch :
    (∀ (m : Model) (item : DeploymentInfo), m.showConfirmDialog = false →
       m.showHelp = false → m.deploymentsList.selectedItem = some item →
       m.Update (.key "2") =
         some ({ m with activeCategory := .deploymentsCategory,
                        selectedResource := item.Name,
                        selectedResourceType := "deployment",
                        activeTab := .configTab },
           [.loadResourceYAML "deployment" item.Name])) ∧
    (∀ (m : Model) (item : PodInfo), m.showConfirmDialog = false →
       m.showHelp = false → m.podsList.selectedItem = some item →
       m.Update (.key "3") =
         some ({ m with activeCategory := .podsCategory,
                        selectedResource := item.Name,
                        selectedResourceType := "pod",
                        activeTab := .logsTab },
           [.loadPodLogs item.Name, .loadPodMetrics item.Name,
            .loadPodEnvVars item.Name, .loadResourceYAML "pod" item.Name])) ∧
    (∀ (m : Model) (item : ServiceInfo), m.showConfirmDialog = false →
       m.showHelp = false → m.servicesList.selectedItem = some item →
       m.Update (.key "4") =
         some ({ m with activeCategory := .servicesCategory,
                        selectedResource := item.Name,
                        selectedResourceType := "service",
                        activeTab := .configTab },
           [.loadResourceYAML "service" item.Name])) ∧
    (∀ m : Model, m.showConfirmDialog = false → m.showHelp = false →
       m.Update (.key "tab") =
         some ({ m with activeCategory := m.activeCategory.next }, [])) ∧
    (∀ m : Model, m.showConfirmDialog = false → m.showHelp = false →
       m.Update (.key "shift+tab") =
         some ({ m with activeCategory := m.activeCategory.prev }, [])) := by
  refine ⟨?_, ?_, ?_, ?_, ?_⟩
  · intro m item hd hh hsel
    simp [Model.Update, hd, hh, Model.keySwitch, Model.keyJump2, hsel]
  · intro m item hd hh hsel
    simp [Model.Update, hd, hh, Model.keySwitch, Model.keyJump3, hsel]
  · intro m item hd hh hsel
    simp [Model.Update, hd, hh, Model.keySwitch, Model.keyJump4, hsel]
  · intro m hd hh
    simp [Model.Update, hd, hh, Model.keySwitch, Model.keyTabCycle]
  · intro m hd hh
    simp [Model.Update, hd, hh, Model.keySwitch, Model.keyShiftTabCycle]

/-- C3 witness: jumping with `2` in the concrete fixture re-derives the
selection context from the selected deployment and issues its YAML load. -/
theorem c3_witness :
    c3Model.Update (.key "2") =
      some ({ c3Model with activeCategory := .deploymentsCategory,
                           selectedResource := "web",
                           selectedResourceType := "deployment",
                           activeTab := .configTab },
        [.loadResourceYAML "deployment" "web"]) :=
  c3_category_switch.1 c3Model testDeployment rfl rfl rfl

/-- C10: a cursor move that lands on a different item not only re-derives
the selection context and issues the loads, it also forcibly overrides the
active tab — Pods navigation sets the Logs tab, Deployments and Services
navigation set the Config tab — regardless of the tab the user had
selected. -/
theorem c10_cursor_move_overrides_tab :
    ∀ (m : Model) (k : String), m.showConfirmDialog = false → m.showHelp = false →
      (k = "up" ∨ k = "down" ∨ k = "j" ∨ k = "k") →
      ((∀ item : PodInfo, m.activeCategory = .podsCategory →
          (m.podsList.update k).selectedItem = some item →
          m.selectedResource ≠ item.Name →
          ∃ p, m.Update (.key k) = some p ∧ p.1.activeTab = .logsTab ∧
            p.1.selectedResource = item.Name ∧ p.1.selectedResourceType = "pod" ∧
            p.2 = [.loadPodLogs item.Name, .loadPodMetrics item.Name,
                   .loadPodEnvVars item.Name, .loadResourceYAML "pod" item.Name]) ∧
       (∀ item : DeploymentInfo, m.activeCategory = .deploymentsCategory →
          (m.deploymentsList.update k).selectedItem = some item →
          m.selectedResource ≠ item.Name →
          ∃ p, m.Update (.key k) = some p ∧ p.1.activeTab = .configTab ∧
            p.1.selectedResource = item.Name ∧
            p.1.selectedResourceType = "deployment" ∧
            p.2 = [.loadResourceYAML "deployment" item.Name]) ∧
       (∀ item : ServiceInfo, m.activeCategory = .servicesCategory →
          (m.servicesList.update k).selectedItem = some item →
          m.selectedResource ≠ item.Name →
          ∃ p, m.Update (.key k) = some p ∧ p.1.activeTab = .configTab ∧
            p.1.selectedResource = item.Name ∧
            p.1.selectedResourceType = "service" ∧
            p.2 = [.loadResourceYAML "service" item.Name])) := by
  intro m k hd hh hk
  refine ⟨?_, ?_, ?_⟩
  · intro item hcat hsel hne
    rcases hk with rfl | rfl | rfl | rfl <;>
      simp [Model.Update, hd, hh, Model.keySwitch, Model.navFall, hcat, hsel, hne,
        Model.viewportStep]
  · intro item hcat hsel hne
    rcases hk with rfl | rfl | rfl | rfl <;>
      simp [Model.Update, hd, hh, Model.keySwitch, Model.navFall, hcat, hsel, hne,
        Model.viewportStep]
  · intro item hcat hsel hne
    rcases hk with rfl | rfl | rfl | rfl <;>
      simp [Model.Update, hd, hh, Model.keySwitch, Model.navFall, hcat, hsel, hne,
        Model.viewportStep]

/-- C10 witness: in the concrete pods-focused fixture on the Config tab,
moving the cursor down to a different pod overrides the active tab to Logs
and issues the four pod loads. -/
theorem c10_witness :
    c10Model.activeTab = RightPaneTab.configTab ∧
    ∃ p, c10Model.Update (.key "down") = some p ∧
      p.1.activeTab = RightPaneTab.logsTab ∧
      p.1.selectedResource = "api-11aa" ∧ p.1.selectedResourceType = "pod" ∧
      p.2 = [.loadPodLogs "api-11aa", .loadPodMetrics "api-11aa",
             .loadPodEnvVars "api-11aa", .loadResourceYAML "pod" "api-11aa"] := by
  refine ⟨rfl, ?_⟩
  have h := (c10_cursor_move_overrides_tab c10Model "down" rfl rfl
    (Or.inr (Or.inl rfl))).1 testPodB rfl (by decide) (by decide)
  simpa [testPodB] using h

end Lazystack
